import Mathlib

/-!
# Med-Connect backend: request handlers as state-passing functions

A shallow embedding of the Express handlers of `auth.js`, `authHos.js` and
`server.js`.  Every handler is a pure function from the request, the outcome of
the effects it awaits (database queries, the classifier process, the bcrypt
salt) and the current table contents to the HTTP response and the new table
contents.

Conventions of the embedding:

* request-body fields are JavaScript values (`JsVal`); an absent field is
  `undefined`;
* a table is the list of its rows in insertion order; a row holds the values
  bound to the placeholders of the `INSERT` statement; the columns filled in by
  the database itself (`id`, `created_at`) are read by none of the handlers
  modelled here and are left out;
* `col = ?` in a `WHERE` clause is equality of the stored and the bound value;
* each awaited query has a Boolean outcome (`true`: it resolves, `false`: it
  rejects and control passes to the enclosing `catch`).
-/

namespace Medinexus

/-! ## JavaScript values -/

/-- A JavaScript number: `NaN`, the two infinities, or a finite value.  Finite
values are carried as rationals (every finite double is one); no handler does
arithmetic on them, so rounding never comes into play. -/
inductive JsNum where
  | nan
  | posInf
  | negInf
  | fin (q : ℚ)
  deriving DecidableEq

/-- The conversion `ToBoolean` on a number: `NaN` and zero are falsy. -/
def JsNum.truthy : JsNum → Bool
  | .nan => false
  | .posInf => true
  | .negInf => true
  | .fin q => decide (q ≠ 0)

/-- Strict equality of two numbers: `NaN` equals nothing. -/
def JsNum.strictEq : JsNum → JsNum → Bool
  | .nan, _ => false
  | _, .nan => false
  | a, b => decide (a = b)

/-- A value found in a parsed request body.  Objects and arrays are carried as
their JSON text; the handlers never look inside them. -/
inductive JsVal where
  | undefined
  | null
  | bool (b : Bool)
  | num (n : JsNum)
  | str (s : String)
  | obj (json : String)
  deriving DecidableEq

/-- The conversion `ToBoolean`, the test behind `!x` and `x || y`. -/
def JsVal.truthy : JsVal → Bool
  | .undefined => false
  | .null => false
  | .bool b => b
  | .num n => n.truthy
  | .str s => decide (s ≠ "")
  | .obj _ => true

/-- The operator `a === b` on two different properties of one parsed body: two
objects are never the same reference. -/
def JsVal.strictEq : JsVal → JsVal → Bool
  | .undefined, .undefined => true
  | .null, .null => true
  | .bool a, .bool b => decide (a = b)
  | .num a, .num b => a.strictEq b
  | .str a, .str b => decide (a = b)
  | _, _ => false

/-- The operator `a || b`. -/
def JsVal.orElse (a b : JsVal) : JsVal :=
  if a.truthy then a else b

/-- The built-in conversions of the JavaScript host that the handlers call and
whose results depend on the text of a string or on the contents of an object.
They are parameters of the model. -/
structure JsHost where
  /-- The call `Number(s)` for a string `s` -/
  stringToNumber : String → JsNum
  /-- The call `Number(o)` for an object or array `o` -/
  objectToNumber : String → JsNum
  /-- The call `String(n)` for a number `n` -/
  numberToString : JsNum → String
  /-- The call `String(o)` for an object or array `o` -/
  objectToString : String → String
  /-- The call `JSON.stringify(v)` for a value other than `undefined` -/
  jsonStringify : JsVal → String

/-- The call `Number(v)`. -/
def JsHost.toNumber (host : JsHost) : JsVal → JsNum
  | .undefined => .nan
  | .null => .fin 0
  | .bool b => if b then .fin 1 else .fin 0
  | .num n => n
  | .str s => host.stringToNumber s
  | .obj o => host.objectToNumber o

/-- The call `String(v)`, the conversion applied inside a template literal. -/
def JsHost.toStr (host : JsHost) : JsVal → String
  | .undefined => "undefined"
  | .null => "null"
  | .bool b => if b then "true" else "false"
  | .num n => host.numberToString n
  | .str s => s
  | .obj o => host.objectToString o

/-- The expression `Number(v) || 0`. -/
def JsHost.numberOrZero (host : JsHost) (v : JsVal) : JsNum :=
  if (host.toNumber v).truthy then host.toNumber v else .fin 0

/-! ## bcrypt -/

/-- The bcrypt library: `hash` at cost 10 with the salt it draws, and
`compare`. -/
structure Bcrypt where
  hash : Nat → String → String
  compare : String → String → Bool

/-- The call `await bcrypt.hash(v, 10)`: both `bcryptjs` and `bcrypt` reject a value
that is not a string (`none`). -/
def Bcrypt.hashVal (bc : Bcrypt) (salt : Nat) : JsVal → Option String
  | .str s => some (bc.hash salt s)
  | _ => none

/-- The call `await bcrypt.compare(v, stored)`: it rejects a value that is not a string. -/
def Bcrypt.compareVal (bc : Bcrypt) (v : JsVal) (stored : String) : Option Bool :=
  match v with
  | .str s => some (bc.compare s stored)
  | _ => none

/-- A host with simple conversions, for evaluating the handlers on concrete
requests: a string of decimal digits converts to its value, any other string
and every object to `NaN`. -/
def sampleHost : JsHost where
  stringToNumber s := match s.toNat? with
    | some n => .fin n
    | none => .nan
  objectToNumber _ := .nan
  numberToString _ := "0"
  objectToString _ := "[object Object]"
  jsonStringify _ := "[]"

/-- A stand-in for bcrypt, for evaluating the handlers on concrete requests:
the hash is the salt in unary, a separator and the password; `compare` checks
the part after the separator. -/
def sampleBcrypt : Bcrypt where
  hash salt s := ⟨List.replicate salt 'x' ++ '$' :: s.data⟩
  compare s stored := decide (stored.data.dropWhile (· ≠ '$') = '$' :: s.data)

/-! ## HTTP responses -/

/-- JSON values as produced by `JSON.parse`. -/
inductive Json where
  | null
  | bool (b : Bool)
  | num (n : JsNum)
  | str (s : String)
  | arr (items : List Json)
  | obj (members : List (String × Json))

/-- The conversion `ToBoolean` on a parsed JSON value. -/
def Json.truthy : Json → Bool
  | .null => false
  | .bool b => b
  | .num n => n.truthy
  | .str s => decide (s ≠ "")
  | .arr _ => true
  | .obj _ => true

/-- The last member of a member list with the given key: `JSON.parse` lets a
later duplicate key overwrite an earlier one. -/
def Json.lookup (key : String) : List (String × Json) → Option Json
  | [] => none
  | (k, v) :: rest =>
    match Json.lookup key rest with
    | some w => some w
    | none => if k = key then some v else none

/-- The property read `v.injuryResult` on a value other than `null`; `none` is
`undefined`.  Only an object can have the property. -/
def Json.injuryResult : Json → Option Json
  | .obj members => Json.lookup "injuryResult" members
  | _ => none

/-! ### `JSON.parse`

A recursive-descent reading of the JSON grammar over the characters of the
text.  The recursion runs on a fuel argument that `jsonParse` sets to twice the
length of the text plus two, more than any parse consumes.  A number literal is
kept as the exact rational it denotes (`JSON.parse` rounds it to the nearest
double), and an escape that names a lone surrogate half, which no `Char` can
hold, is read as U+FFFD. -/

namespace JsonText

/-- The four JSON whitespace characters. -/
def isWs (c : Char) : Bool :=
  c == ' ' || c == '\t' || c == '\n' || c == '\r'

def skipWs (cs : List Char) : List Char := cs.dropWhile isWs

def hexVal (c : Char) : Option Nat :=
  if '0' ≤ c ∧ c ≤ '9' then some (c.toNat - '0'.toNat)
  else if 'a' ≤ c ∧ c ≤ 'f' then some (c.toNat - 'a'.toNat + 10)
  else if 'A' ≤ c ∧ c ≤ 'F' then some (c.toNat - 'A'.toNat + 10)
  else none

/-- The code unit named by the four hexadecimal digits of a `\u` escape. -/
def hex4 (a b c d : Char) : Option Nat :=
  match hexVal a, hexVal b, hexVal c, hexVal d with
  | some w, some x, some y, some z => some (((w * 16 + x) * 16 + y) * 16 + z)
  | _, _, _, _ => none

/-- The character for the code unit of a `\u` escape, given the text after the
escape: a high surrogate followed by the escape of a low surrogate is combined
with it. -/
def unicodeEscape (n : Nat) (rest : List Char) : Char × List Char :=
  if 0xD800 ≤ n ∧ n ≤ 0xDBFF then
    match rest with
    | '\\' :: 'u' :: a :: b :: c :: d :: rest' =>
      match hex4 a b c d with
      | some m =>
        if 0xDC00 ≤ m ∧ m ≤ 0xDFFF then
          (Char.ofNat (0x10000 + (n - 0xD800) * 0x400 + (m - 0xDC00)), rest')
        else (Char.ofNat 0xFFFD, rest)
      | none => (Char.ofNat 0xFFFD, rest)
    | _ => (Char.ofNat 0xFFFD, rest)
  else if 0xDC00 ≤ n ∧ n ≤ 0xDFFF then (Char.ofNat 0xFFFD, rest)
  else (Char.ofNat n, rest)

/-- The rest of a string literal after its opening quote: the characters up to
the closing quote with the escapes resolved, and the text after it. -/
def parseString : Nat → List Char → List Char → Option (String × List Char)
  | 0, _, _ => none
  | fuel + 1, cs, acc =>
    match cs with
    | [] => none
    | '"' :: rest => some (String.mk acc, rest)
    | '\\' :: e :: rest =>
      if e == '"' then parseString fuel rest (acc ++ ['"'])
      else if e == '\\' then parseString fuel rest (acc ++ ['\\'])
      else if e == '/' then parseString fuel rest (acc ++ ['/'])
      else if e == 'b' then parseString fuel rest (acc ++ [Char.ofNat 8])
      else if e == 'f' then parseString fuel rest (acc ++ [Char.ofNat 12])
      else if e == 'n' then parseString fuel rest (acc ++ ['\n'])
      else if e == 'r' then parseString fuel rest (acc ++ ['\r'])
      else if e == 't' then parseString fuel rest (acc ++ ['\t'])
      else if e == 'u' then
        match rest with
        | a :: b :: c :: d :: rest' =>
          match hex4 a b c d with
          | some n =>
            parseString fuel (unicodeEscape n rest').2 (acc ++ [(unicodeEscape n rest').1])
          | none => none
        | _ => none
      else none
    | c :: rest =>
      if c.toNat < 32 then none else parseString fuel rest (acc ++ [c])

/-- The leading decimal digits of a text, and what follows them. -/
def digits (cs : List Char) : List Char × List Char := cs.span Char.isDigit

def natOfDigits (ds : List Char) : Nat :=
  ds.foldl (fun n d => 10 * n + (d.toNat - '0'.toNat)) 0

/-- A number literal: optional minus, integer part without a leading zero,
optional fraction, optional exponent. -/
def parseNumber (cs : List Char) : Option (JsNum × List Char) :=
  let (neg, cs₁) := match cs with
    | '-' :: rest => (true, rest)
    | _ => (false, cs)
  let (ip, cs₂) := digits cs₁
  if ip.isEmpty || (ip.length > 1 && ip.head? == some '0') then none
  else
    let fracPart : Option (List Char × List Char) := match cs₂ with
      | '.' :: rest =>
        let (fp, r) := digits rest
        if fp.isEmpty then none else some (fp, r)
      | _ => some ([], cs₂)
    match fracPart with
    | none => none
    | some (fp, cs₃) =>
      let expPart : Option (Int × List Char) := match cs₃ with
        | e :: rest =>
          if e == 'e' || e == 'E' then
            let (eneg, r₁) := match rest with
              | '-' :: r => (true, r)
              | '+' :: r => (false, r)
              | _ => (false, rest)
            let (ep, r₂) := digits r₁
            if ep.isEmpty then none
            else some (if eneg then - (natOfDigits ep : Int) else (natOfDigits ep : Int), r₂)
          else some (0, cs₃)
        | [] => some (0, cs₃)
      match expPart with
      | none => none
      | some (ex, cs₄) =>
        let mant : ℚ := (natOfDigits (ip ++ fp) : ℚ) / (10 : ℚ) ^ fp.length
        let q : ℚ := mant * (10 : ℚ) ^ ex
        some (.fin (if neg then -q else q), cs₄)

mutual
/-- A JSON value at the head of the text (whitespace already skipped), and the
text after it. -/
def parseValue : Nat → List Char → Option (Json × List Char)
  | 0, _ => none
  | fuel + 1, cs =>
    match cs with
    | '\x7b' :: rest =>
      match skipWs rest with
      | '\x7d' :: rest' => some (.obj [], rest')
      | rest' => parseMembers fuel rest' []
    | '[' :: rest =>
      match skipWs rest with
      | ']' :: rest' => some (.arr [], rest')
      | rest' => parseElements fuel rest' []
    | '"' :: rest =>
      match parseString (rest.length + 1) rest [] with
      | some (s, rest') => some (.str s, rest')
      | none => none
    | 't' :: 'r' :: 'u' :: 'e' :: rest => some (.bool true, rest)
    | 'f' :: 'a' :: 'l' :: 's' :: 'e' :: rest => some (.bool false, rest)
    | 'n' :: 'u' :: 'l' :: 'l' :: rest => some (.null, rest)
    | _ =>
      match parseNumber cs with
      | some (n, rest) => some (.num n, rest)
      | none => none
/-- The elements of an array after its opening bracket, up to the closing
one. -/
def parseElements : Nat → List Char → List Json → Option (Json × List Char)
  | 0, _, _ => none
  | fuel + 1, cs, acc =>
    match parseValue fuel (skipWs cs) with
    | none => none
    | some (v, rest) =>
      match skipWs rest with
      | ',' :: rest' => parseElements fuel rest' (acc ++ [v])
      | ']' :: rest' => some (.arr (acc ++ [v]), rest')
      | _ => none
/-- The members of an object after its opening brace, up to the closing one. -/
def parseMembers : Nat → List Char → List (String × Json) → Option (Json × List Char)
  | 0, _, _ => none
  | fuel + 1, cs, acc =>
    match skipWs cs with
    | '"' :: rest =>
      match parseString (rest.length + 1) rest [] with
      | none => none
      | some (key, rest₁) =>
        match skipWs rest₁ with
        | ':' :: rest₂ =>
          match parseValue fuel (skipWs rest₂) with
          | none => none
          | some (v, rest₃) =>
            match skipWs rest₃ with
            | ',' :: rest₄ => parseMembers fuel rest₄ (acc ++ [(key, v)])
            | '\x7d' :: rest₄ => some (.obj (acc ++ [(key, v)]), rest₄)
            | _ => none
        | _ => none
    | _ => none
end

/-- The call `JSON.parse(text)`: the value, or `none` where `JSON.parse` throws a
`SyntaxError`. -/
def jsonParse (text : List Char) : Option Json :=
  match parseValue (2 * (skipWs text).length + 2) (skipWs text) with
  | some (v, rest) => if (skipWs rest).isEmpty then some v else none
  | none => none

end JsonText

/-- The JSON bodies the handlers send. -/
inductive Body where
  /-- A body `{ message }` -/
  | message (message : String)
  /-- A body `{ error }` -/
  | error (error : String)
  /-- A body `{ message, ... }` with further fields copied from the caught error -/
  | failure (message : String)
  /-- A body `{ message, user: { user_name, mobile, blood_group } }` -/
  | loginUser (message : String) (user_name mobile blood_group : JsVal)
  /-- A body `{ message, uploadedFile, detection }` -/
  | triage (message uploadedFile : String) (detection : Json)
  /-- A body `{ message, receipt: { id, name, mobile, blood_group, duration_days,
  ambulance_required, prescription_image, timestamp } }`; `none` is `null` -/
  | symptomsReceipt (message : String) (id : Nat)
      (name mobile blood_group duration_days ambulance_required : JsVal)
      (prescription_image : Option String) (timestamp : Nat)

/-- A response: status code and JSON body. -/
structure Response where
  status : Nat
  body : Body

/-! ## `auth.js`: patient registration and login -/

namespace Auth

/-- The helper `sendServerError(res, err, fallback)`; the handlers that pass no fallback
get the default `"Server error"`. -/
def sendServerError (fallback : String) : Response :=
  ⟨500, .message fallback⟩

/-- The fields `POST /register` destructures from `req.body`. -/
structure RegisterBody where
  user_name : JsVal
  age : JsVal
  email : JsVal
  blood_group : JsVal
  mobile : JsVal
  user_password : JsVal
  confirmPassword : JsVal

/-- A row of `users`. -/
structure User where
  user_name : JsVal
  age : JsNum
  email : JsVal
  blood_group : JsVal
  mobile : JsVal
  user_password : String
  deriving DecidableEq

/-- The rows selected by
`SELECT id FROM users WHERE user_name = ? OR email = ? OR mobile = ?`. -/
def selectDuplicates (users : List User) (user_name email mobile : JsVal) : List User :=
  users.filter fun u =>
    decide (u.user_name = user_name) || decide (u.email = email) || decide (u.mobile = mobile)

/-- The rows selected by `SELECT * FROM users WHERE user_name = ?`. -/
def selectByName (users : List User) (user_name : JsVal) : List User :=
  users.filter fun u => decide (u.user_name = user_name)

/-- The handler of `router.post("/register")`. -/
def register (host : JsHost) (bc : Bcrypt) (salt : Nat) (selectOk insertOk : Bool)
    (users : List User) (body : RegisterBody) : Response × List User :=
  if !body.user_name.truthy || !body.age.truthy || !body.email.truthy
      || !body.blood_group.truthy || !body.mobile.truthy
      || !body.user_password.truthy || !body.confirmPassword.truthy then
    (⟨400, .message "All fields are required"⟩, users)
  else if !body.user_password.strictEq body.confirmPassword then
    (⟨400, .message "Passwords do not match"⟩, users)
  else
    match bc.hashVal salt body.user_password with
    | none => (sendServerError "Server error", users)
    | some hashedPassword =>
      if !selectOk then (sendServerError "Server error", users)
      else
        let existing := selectDuplicates users body.user_name body.email body.mobile
        if existing.length > 0 then
          (⟨409, .message "Username, email, or mobile already exists"⟩, users)
        else if !insertOk then (sendServerError "Server error", users)
        else
          (⟨201, .message "User registered successfully"⟩,
           users ++ [{ user_name := body.user_name, age := host.toNumber body.age,
                       email := body.email, blood_group := body.blood_group,
                       mobile := body.mobile, user_password := hashedPassword }])

/-- The fields `POST /login` destructures from `req.body`. -/
structure LoginBody where
  user_name : JsVal
  user_password : JsVal

/-- The handler of `router.post("/login")`; it writes nothing. -/
def login (host : JsHost) (bc : Bcrypt) (selectOk : Bool)
    (users : List User) (body : LoginBody) : Response :=
  if !body.user_name.truthy || !body.user_password.truthy then
    ⟨400, .message "Username and password are required"⟩
  else if !selectOk then sendServerError "Login failed"
  else
    match selectByName users body.user_name with
    | [] => ⟨404, .message "User not found"⟩
    | user :: _ =>
      match bc.compareVal body.user_password user.user_password with
      | none => sendServerError "Login failed"
      | some isMatch =>
        if !isMatch then ⟨401, .message "Invalid credentials"⟩
        else
          ⟨200, .loginUser ("Welcome " ++ host.toStr user.user_name ++ " on Med-Connect")
                  user.user_name user.mobile user.blood_group⟩

/-- A well-formed registration request, for evaluating the handlers. -/
def sampleRegisterBody : RegisterBody where
  user_name := .str "asha"
  age := .str "34"
  email := .str "asha@example.org"
  blood_group := .str "O+"
  mobile := .str "9800000001"
  user_password := .str "s3cret"
  confirmPassword := .str "s3cret"

/-- The row that `sampleRegisterBody` leaves in the table under `sampleHost`
and `sampleBcrypt` with salt 3. -/
def sampleUser : User where
  user_name := .str "asha"
  age := .fin 34
  email := .str "asha@example.org"
  blood_group := .str "O+"
  mobile := .str "9800000001"
  user_password := sampleBcrypt.hash 3 "s3cret"

/-- One `POST /register` request together with the outcome of its awaited
effects. -/
structure RegisterCall where
  salt : Nat
  selectOk : Bool
  insertOk : Bool
  body : RegisterBody

/-- The table after a sequence of `POST /register` requests processed one after
another. -/
def registerAll (host : JsHost) (bc : Bcrypt) (users : List User) :
    List RegisterCall → List User
  | [] => users
  | c :: rest =>
    registerAll host bc
      (register host bc c.salt c.selectOk c.insertOk users c.body).2 rest

/-- No two rows share a username, an email or a mobile number. -/
def UniqueUsers (users : List User) : Prop :=
  (users.map (·.user_name)).Nodup ∧ (users.map (·.email)).Nodup
    ∧ (users.map (·.mobile)).Nodup

end Auth

/-! ## Hospital registration: `authHos.js` and `server.js` -/

/-- The fields the two hospital registrations read from `req.body`. -/
structure HospitalBody where
  hospitalName : JsVal
  hospitalType : JsVal
  license : JsVal
  estYear : JsVal
  hospitalEmail : JsVal
  username : JsVal
  password : JsVal
  address : JsVal
  city : JsVal
  state : JsVal
  pin : JsVal
  phone : JsVal
  website : JsVal
  totalBeds : JsVal
  icuBeds : JsVal
  ventilators : JsVal
  ambulances : JsVal
  doctors : JsVal
  nurses : JsVal
  departments : JsVal
  longitude : JsVal
  latitude : JsVal

/-- A row of `hospitals`: the 22 values of the `params` array, in the order of
the column list of the `INSERT`. -/
structure Hospital where
  hospitalName : JsVal
  hospitalType : JsVal
  license : JsVal
  estYear : JsVal
  hospitalEmail : JsVal
  username : JsVal
  password : String
  address : JsVal
  city : JsVal
  state : JsVal
  pin : JsVal
  phone : JsVal
  website : JsVal
  totalBeds : JsNum
  icuBeds : JsNum
  ventilators : JsNum
  ambulances : JsNum
  doctors : JsNum
  nurses : JsNum
  departments : String
  longitude : JsVal
  latitude : JsVal
  deriving DecidableEq

/-- The rows selected by `SELECT id FROM hospitals WHERE username = ?`. -/
def selectHospital (hospitals : List Hospital) (username : JsVal) : List Hospital :=
  hospitals.filter fun h => decide (h.username = username)

namespace AuthHos

/-- The `params` array of `router.post("/register-hospital")`. -/
def params (host : JsHost) (data : HospitalBody) (hashedPassword : String) : Hospital where
  hospitalName := data.hospitalName
  hospitalType := data.hospitalType.orElse .null
  license := data.license.orElse .null
  estYear := data.estYear.orElse .null
  hospitalEmail := data.hospitalEmail.orElse .null
  username := data.username
  password := hashedPassword
  address := data.address.orElse .null
  city := data.city.orElse .null
  state := data.state.orElse .null
  pin := data.pin.orElse .null
  phone := data.phone.orElse .null
  website := data.website.orElse .null
  totalBeds := host.numberOrZero data.totalBeds
  icuBeds := host.numberOrZero data.icuBeds
  ventilators := host.numberOrZero data.ventilators
  ambulances := host.numberOrZero data.ambulances
  doctors := host.numberOrZero data.doctors
  nurses := host.numberOrZero data.nurses
  departments := host.jsonStringify (data.departments.orElse (.obj "[]"))
  longitude := data.longitude.orElse .null
  latitude := data.latitude.orElse .null

/-- The handler of `router.post("/register-hospital")`.  Every rejection inside
the `try` lands in the one `catch`. -/
def registerHospital (host : JsHost) (bc : Bcrypt) (salt : Nat) (selectOk insertOk : Bool)
    (hospitals : List Hospital) (data : HospitalBody) : Response × List Hospital :=
  if !data.hospitalName.truthy || !data.username.truthy || !data.password.truthy then
    (⟨400, .message "Hospital Name, Username, and Password are required."⟩, hospitals)
  else if !selectOk then (⟨500, .failure "Database insert failed"⟩, hospitals)
  else
    let existing := selectHospital hospitals data.username
    if existing.length > 0 then
      (⟨400, .message "Username already exists."⟩, hospitals)
    else
      match bc.hashVal salt data.password with
      | none => (⟨500, .failure "Database insert failed"⟩, hospitals)
      | some hashedPassword =>
        if !insertOk then (⟨500, .failure "Database insert failed"⟩, hospitals)
        else
          (⟨201, .message "Hospital registered successfully!"⟩,
           hospitals ++ [params host data hashedPassword])

end AuthHos

namespace Server

/-- The `params` array of `app.post("/register")`. -/
def params (host : JsHost) (data : HospitalBody) (hashedPassword : String) : Hospital where
  hospitalName := data.hospitalName
  hospitalType := data.hospitalType.orElse .null
  license := data.license.orElse .null
  estYear := data.estYear.orElse .null
  hospitalEmail := data.hospitalEmail.orElse .null
  username := data.username
  password := hashedPassword
  address := data.address.orElse .null
  city := data.city.orElse .null
  state := data.state.orElse .null
  pin := data.pin.orElse .null
  phone := data.phone.orElse .null
  website := data.website.orElse .null
  totalBeds := host.numberOrZero data.totalBeds
  icuBeds := host.numberOrZero data.icuBeds
  ventilators := host.numberOrZero data.ventilators
  ambulances := host.numberOrZero data.ambulances
  doctors := host.numberOrZero data.doctors
  nurses := host.numberOrZero data.nurses
  departments := host.jsonStringify (data.departments.orElse (.obj "[]"))
  longitude := data.longitude.orElse .null
  latitude := data.latitude.orElse .null

/-- The handler of `app.post("/register")`.  A rejected `INSERT` is caught by
the inner `catch`, every other rejection by the outer one. -/
def register (host : JsHost) (bc : Bcrypt) (salt : Nat) (selectOk insertOk : Bool)
    (hospitals : List Hospital) (data : HospitalBody) : Response × List Hospital :=
  if !data.hospitalName.truthy || !data.username.truthy || !data.password.truthy then
    (⟨400, .message "Hospital Name, Username, and Password are required."⟩, hospitals)
  else if !selectOk then (⟨500, .failure "Server error"⟩, hospitals)
  else
    let existing := selectHospital hospitals data.username
    if existing.length > 0 then
      (⟨400, .message "Username already exists."⟩, hospitals)
    else
      match bc.hashVal salt data.password with
      | none => (⟨500, .failure "Server error"⟩, hospitals)
      | some hashedPassword =>
        if !insertOk then (⟨500, .failure "Database insert failed"⟩, hospitals)
        else
          (⟨200, .message "Hospital registered successfully!"⟩,
           hospitals ++ [params host data hashedPassword])

end Server

/-! ## `server.js`: emergency submission with triage -/

namespace Server

/-- The call `stdout.match(/\{.*\}/s)`: with the dot matching every character and the
star greedy, the match runs from the first opening brace of the text to the
last closing brace after it; there is no match when no closing brace follows
the first opening brace. -/
def matchBraces (stdout : List Char) : Option (List Char) :=
  match ((stdout.dropWhile (· ≠ '\x7b')).reverse.dropWhile (· ≠ '\x7d')).reverse with
  | [] => none
  | block => some block

/-- The value of `prediction` after the `try` block that reads the classifier
output. -/
def prediction (stdout : List Char) : Json :=
  match matchBraces stdout with
  | none => .str "No result"
  | some block =>
    match JsonText.jsonParse block with
    | none => .str "No result"
    | some pyOutput =>
      match (if pyOutput.truthy then pyOutput.injuryResult else none) with
      | some injuryResult => if injuryResult.truthy then injuryResult else .str "No result"
      | none => .str "No result"

/-- The text fields `POST /emergency/submit` destructures from `req.body`. -/
structure EmergencyBody where
  reportingFor : JsVal
  emergencyType : JsVal
  patientName : JsVal
  mobile : JsVal
  bloodGroup : JsVal
  ambulance : JsVal

/-- A row of `emergency_reports`. -/
structure EmergencyReport where
  reportingFor : JsVal
  emergencyType : JsVal
  patientName : JsVal
  mobile : JsVal
  bloodGroup : JsVal
  ambulance : JsVal
  imageName : String
  detection : Json

/-- The handler of `app.post("/emergency/submit")` together with the callback
it passes to `exec`.  `file` is `req.file.filename` when an image was uploaded,
`execErr` tells whether `exec` reported an error, `stdout` is the classifier
output. -/
def emergencySubmit (file : Option String) (execErr : Bool) (stdout : List Char)
    (insertOk : Bool) (reports : List EmergencyReport) (body : EmergencyBody) :
    Response × List EmergencyReport :=
  match file with
  | none => (⟨400, .error "No image uploaded"⟩, reports)
  | some filename =>
    if execErr then (⟨500, .message "Prediction failed"⟩, reports)
    else if !insertOk then (⟨500, .message "Database insert failed"⟩, reports)
    else
      (⟨200, .triage "✅ Emergency submitted successfully!" filename (prediction stdout)⟩,
       reports ++ [{ reportingFor := body.reportingFor.orElse .null,
                     emergencyType := body.emergencyType.orElse .null,
                     patientName := body.patientName.orElse .null,
                     mobile := body.mobile.orElse .null,
                     bloodGroup := body.bloodGroup.orElse .null,
                     ambulance := body.ambulance.orElse .null,
                     imageName := filename,
                     detection := prediction stdout }])

/-- A submission with no text field. -/
def emptyEmergencyBody : EmergencyBody :=
  ⟨.undefined, .undefined, .undefined, .undefined, .undefined, .undefined⟩

/-- Classifier output with log lines around the result object. -/
def sampleStdout : String :=
  "image 1/1 wound.jpg: 640x640\n\x7b\"injuryResult\": \"major injury\"\x7d\nSpeed: 4.1ms\n"

/-- Classifier output in which a later line contains braces of its own. -/
def bracedStdout : String :=
  "\x7b\"injuryResult\": \"major injury\"\x7d\nSpeed: \x7b4.1ms\x7d\n"

end Server

/-- The two endpoints that register a hospital. -/
inductive HospitalRoute where
  /-- The route `POST /register-hospital` of `authHos.js` -/
  | authHos
  /-- The route `POST /register` of `server.js` -/
  | server
  deriving DecidableEq

/-- A hospital registration sent to one of the two endpoints. -/
def registerVia (route : HospitalRoute) (host : JsHost) (bc : Bcrypt) (salt : Nat)
    (selectOk insertOk : Bool) (hospitals : List Hospital) (data : HospitalBody) :
    Response × List Hospital :=
  match route with
  | .authHos => AuthHos.registerHospital host bc salt selectOk insertOk hospitals data
  | .server => Server.register host bc salt selectOk insertOk hospitals data

/-- The row a hospital registration appends, on either endpoint. -/
def paramsVia (route : HospitalRoute) (host : JsHost) (data : HospitalBody)
    (hashedPassword : String) : Hospital :=
  match route with
  | .authHos => AuthHos.params host data hashedPassword
  | .server => Server.params host data hashedPassword

/-- One hospital registration request together with the endpoint it goes to and
the outcome of its awaited effects. -/
structure HospitalCall where
  route : HospitalRoute
  salt : Nat
  selectOk : Bool
  insertOk : Bool
  data : HospitalBody

/-- The table after a sequence of hospital registrations processed one after
another. -/
def registerHospitals (host : JsHost) (bc : Bcrypt) (hospitals : List Hospital) :
    List HospitalCall → List Hospital
  | [] => hospitals
  | c :: rest =>
    registerHospitals host bc
      (registerVia c.route host bc c.salt c.selectOk c.insertOk hospitals c.data).2 rest

/-- A request body with no field at all. -/
def emptyHospitalBody : HospitalBody :=
  ⟨.undefined, .undefined, .undefined, .undefined, .undefined, .undefined, .undefined,
   .undefined, .undefined, .undefined, .undefined, .undefined, .undefined, .undefined,
   .undefined, .undefined, .undefined, .undefined, .undefined, .undefined, .undefined,
   .undefined⟩

/-- A registration that gives only the three required fields. -/
def sampleHospitalBody : HospitalBody :=
  { emptyHospitalBody with
    hospitalName := .str "City Care", username := .str "citycare", password := .str "s3cret" }

/-- The row `sampleHospitalBody` leaves in the table under `sampleHost` and
`sampleBcrypt` with salt 2. -/
def sampleHospital : Hospital :=
  AuthHos.params sampleHost sampleHospitalBody (sampleBcrypt.hash 2 "s3cret")

/-- The property the data model states for a stored count: a non-negative
integer. -/
def JsNum.IsNonNegInt : JsNum → Prop
  | .fin q => 0 ≤ q ∧ q.den = 1
  | _ => False

/-! ## `auth.js`: symptom reports with an optional upload -/

/-- The functions of the Node library that the upload storage and the
`/symptoms` route call on strings.  They are parameters of the model. -/
structure NodeLib where
  /-- The call `path.extname(p)` -/
  extname : String → String
  /-- The call `s.toLowerCase()` -/
  toLowerCase : String → String

namespace Path

/-- The function `path.extname` in its POSIX flavour: the text from the last
dot of the last portion of the path to its end (trailing slashes set aside);
empty when that portion has no dot, when its only dot is its first character,
or when it is `..`. -/
def extname (path : String) : String :=
  let baseRev := (path.data.reverse.dropWhile (· == '/')).takeWhile (· != '/')
  match baseRev.dropWhile (· != '.') with
  | [] => ""
  | _ :: beforeRev =>
    if beforeRev.isEmpty then ""
    else if baseRev == ['.', '.'] then ""
    else String.mk ('.' :: (baseRev.takeWhile (· != '.')).reverse)

end Path

/-- The library as it behaves on ASCII text: `extname` of POSIX paths, and a
`toLowerCase` that lowers the letters A to Z (JavaScript lowers the letters
outside ASCII as well). -/
def posixNode : NodeLib where
  extname := Path.extname
  toLowerCase s := String.mk (s.data.map Char.toLower)

/-- The call `s.includes(sub)`. -/
def includes (s sub : String) : Bool :=
  s.data.tails.any fun t => sub.data.isPrefixOf t

namespace Auth

/-- The file part that multer hands to the storage engine; `originalname` is
the file name sent by the client, `none` when `undefined`. -/
structure FilePart where
  originalname : Option String

namespace storage

/-- The `filename` callback of the disk storage: `now` is `Date.now()` and
`random` is `Math.random().toString(36).slice(2)`. -/
def filename (lib : NodeLib) (now : Nat) (random : String) (file : FilePart) : String :=
  let safeExt := lib.toLowerCase (lib.extname (file.originalname.getD ""))
  toString now ++ "_" ++ random ++ safeExt

end storage

/-- The fields `handleSymptoms` destructures from `req.body`. -/
structure SymptomsBody where
  name : JsVal
  mobile : JsVal
  blood_group : JsVal
  duration_days : JsVal
  ambulance_required : JsVal

/-- A row of `symptom_reports`; `prescription_image` is `none` for `null`. -/
structure SymptomReport where
  name : JsVal
  mobile : JsVal
  blood_group : JsVal
  duration_days : JsNum
  ambulance_required : JsVal
  prescription_image : Option String
  deriving DecidableEq

/-- The function `handleSymptoms`.  `file` is `req.file.filename` when multer
stored an upload; `insertId` is the identifier the driver reports for the new
row and `timestamp` the value of `new Date()`. -/
def handleSymptoms (host : JsHost) (file : Option String) (insertOk : Bool)
    (insertId timestamp : Nat) (reports : List SymptomReport) (body : SymptomsBody) :
    Response × List SymptomReport :=
  let prescriptionImage := file
  if !body.name.truthy || !body.mobile.truthy || !body.blood_group.truthy
      || !body.duration_days.truthy || !body.ambulance_required.truthy then
    (⟨400, .message "Missing required fields"⟩, reports)
  else if !insertOk then (sendServerError "Server error", reports)
  else
    (⟨201, .symptomsReceipt "Symptoms report submitted successfully." insertId
            body.name body.mobile body.blood_group body.duration_days
            body.ambulance_required prescriptionImage timestamp⟩,
     reports ++ [{ name := body.name, mobile := body.mobile,
                   blood_group := body.blood_group,
                   duration_days := host.toNumber body.duration_days,
                   ambulance_required := body.ambulance_required,
                   prescription_image := prescriptionImage }])

/-- The handler of `router.post("/symptoms")`.  `contentType` is the
`content-type` header (`none` when absent) and `part` the file part of field
`prescription_image` that multer accepts from a multipart body, if any; multer
runs, and stores the part under `storage.filename`, only for a multipart
request. -/
def symptoms (lib : NodeLib) (host : JsHost) (contentType : Option String)
    (part : Option FilePart) (now : Nat) (random : String) (insertOk : Bool)
    (insertId timestamp : Nat) (reports : List SymptomReport) (body : SymptomsBody) :
    Response × List SymptomReport :=
  if includes (lib.toLowerCase (contentType.getD "")) "multipart/form-data" then
    handleSymptoms host (part.map (storage.filename lib now random)) insertOk insertId
      timestamp reports body
  else
    handleSymptoms host none insertOk insertId timestamp reports body

/-- A symptom report with the five required fields. -/
def sampleSymptomsBody : SymptomsBody where
  name := .str "Asha"
  mobile := .str "9800000001"
  blood_group := .str "O+"
  duration_days := .str "3"
  ambulance_required := .str "No"

end Auth

/-! ## Routing: the routers of `auth.js` and `authHos.js` and the application of
`server.js`

A request path is the list of its non-empty segments, so a trailing slash makes
no difference, as in Express without strict routing.  Literal segments are
compared without regard to the case of the letters A to Z.  The body parsers,
which pass every well-formed request on, and the automatic answer to `OPTIONS`
are left out. -/

/-- The request methods; `other` stands for every method but GET, HEAD and
POST. -/
inductive Method where
  | get
  | head
  | post
  | other
  deriving DecidableEq

/-- The two registration calls the source uses: `.get(...)` and `.post(...)`. -/
inductive Verb where
  | get
  | post
  deriving DecidableEq

/-- A `.get` route also answers HEAD; a `.post` route answers POST only. -/
def Verb.accepts : Verb → Method → Bool
  | .get, .get => true
  | .get, .head => true
  | .post, .post => true
  | _, _ => false

/-- A segment of a route pattern: literal text, or a parameter such as
`:username`. -/
inductive Segment where
  | lit (text : String)
  | param (name : String)
  deriving DecidableEq

/-- Whether two segments are the same text up to the case of ASCII letters. -/
def sameSegment (a b : String) : Bool :=
  a.data.map Char.toLower == b.data.map Char.toLower

/-- A parameter accepts any (non-empty) segment. -/
def Segment.accepts : Segment → String → Bool
  | .lit text, seg => sameSegment text seg
  | .param _, _ => true

/-- A route pattern matches a path when it accepts it segment by segment. -/
def matchPath : List Segment → List String → Bool
  | [], [] => true
  | p :: ps, seg :: segs => p.accepts seg && matchPath ps segs
  | _, _ => false

/-- The handlers registered anywhere in the three files. -/
inductive Handler where
  /-- The handler of `POST /register` in `auth.js` -/
  | patientRegister
  /-- The handler of `POST /login` in `auth.js` -/
  | patientLogin
  /-- The handler of `GET /me/:username` in `auth.js` -/
  | patientMe
  /-- The handler of `POST /emergency/submit` in `auth.js` -/
  | patientEmergencySubmit
  /-- The handler of `POST /symptoms` in `auth.js` -/
  | patientSymptoms
  /-- The handler of `GET /health` in `auth.js` -/
  | patientHealth
  /-- The handler of `POST /register-hospital` in `authHos.js` -/
  | registerHospital
  /-- The handler of `POST /authority-login` in `authHos.js` -/
  | authorityLogin
  /-- The handler of `GET /hospital/:username` in `authHos.js` -/
  | hospitalByUsername
  /-- The handler of `GET /health` in `authHos.js` -/
  | hospitalHealth
  /-- The handler of `POST /emergency/submit` in `server.js` -/
  | triageSubmit
  /-- The handler of `POST /register` in `server.js` -/
  | serverRegister
  /-- The handler of `GET /` in `server.js` -/
  | frontpage
  deriving DecidableEq

/-- Whether a handler is one of the Hospital Auth Service, the router of
`authHos.js`. -/
def Handler.isHospitalAuth : Handler → Bool
  | .registerHospital => true
  | .authorityLogin => true
  | .hospitalByUsername => true
  | .hospitalHealth => true
  | _ => false

/-- A registered route. -/
structure Route where
  verb : Verb
  path : List Segment
  handler : Handler

/-- The first route of a router that matches the request, if any. -/
def routerDispatch (routes : List Route) (method : Method) (path : List String) :
    Option Handler :=
  (routes.find? fun r => r.verb.accepts method && matchPath r.path path).map (·.handler)

namespace Auth

/-- The router `auth.js` exports, in registration order. -/
def router : List Route :=
  [ ⟨.post, [.lit "register"], .patientRegister⟩,
    ⟨.post, [.lit "login"], .patientLogin⟩,
    ⟨.get, [.lit "me", .param "username"], .patientMe⟩,
    ⟨.post, [.lit "emergency", .lit "submit"], .patientEmergencySubmit⟩,
    ⟨.post, [.lit "symptoms"], .patientSymptoms⟩,
    ⟨.get, [.lit "health"], .patientHealth⟩ ]

end Auth

namespace AuthHos

/-- The router `authHos.js` exports, in registration order. -/
def router : List Route :=
  [ ⟨.post, [.lit "register-hospital"], .registerHospital⟩,
    ⟨.post, [.lit "authority-login"], .authorityLogin⟩,
    ⟨.get, [.lit "hospital", .param "username"], .hospitalByUsername⟩,
    ⟨.get, [.lit "health"], .hospitalHealth⟩ ]

end AuthHos

/-- A layer of the application stack. -/
inductive Layer where
  /-- The layer `express.static(...)`: answers GET and HEAD for a path it has a
  file for, and passes on otherwise -/
  | static
  /-- The layer `app.use(base, router)`: a router mounted under a base path -/
  | use (base : List String) (router : List Route)
  /-- A route registered on the application itself -/
  | route (r : Route)

/-- What becomes of a request. -/
inductive Outcome where
  /-- A registered handler answers -/
  | handler (h : Handler)
  /-- The static layer serves a file -/
  | staticFile
  /-- No layer answers: Express replies 404 -/
  | notFound
  deriving DecidableEq

/-- Whether `base` is the beginning of `path`, segment by segment; the rest of
the path when it is. -/
def stripBase : List String → List String → Option (List String)
  | [], path => some path
  | b :: bs, seg :: segs => if sameSegment b seg then stripBase bs segs else none
  | _ :: _, [] => none

/-- The walk of a request down the stack.  `served` tells for which paths the
public directory has a file. -/
def dispatch (served : List String → Bool) :
    List Layer → Method → List String → Outcome
  | [], _, _ => .notFound
  | .static :: rest, method, path =>
    if (method = .get ∨ method = .head) ∧ served path = true then .staticFile
    else dispatch served rest method path
  | .use base router :: rest, method, path =>
    match stripBase base path with
    | some sub =>
      match routerDispatch router method sub with
      | some h => .handler h
      | none => dispatch served rest method path
    | none => dispatch served rest method path
  | .route r :: rest, method, path =>
    if r.verb.accepts method && matchPath r.path path then .handler r.handler
    else dispatch served rest method path

namespace Server

/-- The stack `server.js` builds, in the order of its `app.use`, `app.post` and
`app.get` calls: the only router it requires and mounts is that of
`auth.js`. -/
def app : List Layer :=
  [ .static,
    .use ["auth"] Auth.router,
    .route ⟨.post, [.lit "emergency", .lit "submit"], .triageSubmit⟩,
    .route ⟨.post, [.lit "register"], .serverRegister⟩,
    .route ⟨.get, [], .frontpage⟩ ]

end Server

/-- The handlers registered in a layer. -/
def Layer.handlers : Layer → List Handler
  | .static => []
  | .use _ router => router.map (·.handler)
  | .route r => [r.handler]

/-- The handlers registered anywhere in a stack. -/
def stackHandlers : List Layer → List Handler
  | [] => []
  | layer :: rest => layer.handlers ++ stackHandlers rest

/-- A public directory that has no file for any of the paths asked. -/
def noPublicFile : List String → Bool := fun _ => false

end Medinexus

/-! # Theorems -/

namespace Medinexus

/-- Values that differ are not strictly equal. -/
theorem JsVal.strictEq_eq_false_of_ne {a b : JsVal} (h : a ≠ b) : a.strictEq b = false := by
  cases a <;> cases b <;> simp_all [JsVal.strictEq]
  rename_i x y
  cases x <;> cases y <;> simp_all [JsNum.strictEq]

/-- A string is strictly equal to itself. -/
theorem JsVal.strictEq_str (s : String) : (JsVal.str s).strictEq (.str s) = true := by
  simp [JsVal.strictEq]

/-- A string is truthy exactly when it is not empty. -/
theorem JsVal.truthy_str (s : String) : (JsVal.str s).truthy = decide (s ≠ "") := rfl

namespace Auth

theorem selectDuplicates_eq_nil_iff (users : List User) (n e m : JsVal) :
    selectDuplicates users n e m = [] ↔
      ∀ u ∈ users, u.user_name ≠ n ∧ u.email ≠ e ∧ u.mobile ≠ m := by
  simp [selectDuplicates, List.filter_eq_nil_iff, not_or, and_assoc]

theorem selectByName_eq_nil_iff (users : List User) (n : JsVal) :
    selectByName users n = [] ↔ ∀ u ∈ users, u.user_name ≠ n := by
  simp [selectByName, List.filter_eq_nil_iff]

/-- What `register` does once validation and hashing have passed and both
queries resolve on a table with no clashing row. -/
theorem register_accept (host : JsHost) (bc : Bcrypt) (salt : Nat) (users : List User)
    (body : RegisterBody) (p : String)
    (hname : body.user_name.truthy = true) (hage : body.age.truthy = true)
    (hemail : body.email.truthy = true) (hbg : body.blood_group.truthy = true)
    (hmobile : body.mobile.truthy = true)
    (hpw : body.user_password = .str p) (hconf : body.confirmPassword = .str p)
    (hp : p ≠ "")
    (hfresh : ∀ u ∈ users,
      u.user_name ≠ body.user_name ∧ u.email ≠ body.email ∧ u.mobile ≠ body.mobile) :
    register host bc salt true true users body =
      (⟨201, .message "User registered successfully"⟩,
       users ++ [{ user_name := body.user_name, age := host.toNumber body.age,
                   email := body.email, blood_group := body.blood_group,
                   mobile := body.mobile, user_password := bc.hash salt p }]) := by
  have hdup := (selectDuplicates_eq_nil_iff users body.user_name body.email body.mobile).2 hfresh
  simp [register, hname, hage, hemail, hbg, hmobile, hpw, hconf, JsVal.truthy_str, hp,
    JsVal.strictEq_str, Bcrypt.hashVal, hdup]

theorem selectByName_cons_iff_find (users : List User) (n : JsVal) (u : User) :
    (∃ rest, selectByName users n = u :: rest) ↔
      users.find? (fun v => decide (v.user_name = n)) = some u := by
  induction users with
  | nil => simp [selectByName]
  | cons v vs ih =>
    by_cases hv : v.user_name = n
    · simp [selectByName, List.filter_cons, List.find?_cons, hv]
    · simpa [selectByName, List.filter_cons, List.find?_cons, hv] using ih

/-- C1: a registration whose seven fields are present, whose password is a
non-empty string equal to the confirmation and which clashes with no existing
row is answered 201 and appends exactly one row; logging in right afterwards
with the same username and password is answered 200, provided the queries
resolve and bcrypt accepts the password against the hash it has just made. -/
theorem register_then_login (host : JsHost) (bc : Bcrypt) (salt : Nat) (users : List User)
    (body : RegisterBody) (p : String)
    (hname : body.user_name.truthy = true) (hage : body.age.truthy = true)
    (hemail : body.email.truthy = true) (hbg : body.blood_group.truthy = true)
    (hmobile : body.mobile.truthy = true)
    (hpw : body.user_password = .str p) (hconf : body.confirmPassword = .str p)
    (hp : p ≠ "")
    (hfresh : ∀ u ∈ users,
      u.user_name ≠ body.user_name ∧ u.email ≠ body.email ∧ u.mobile ≠ body.mobile)
    (hcmp : bc.compare p (bc.hash salt p) = true) :
    (register host bc salt true true users body).1.status = 201 ∧
    (register host bc salt true true users body).2 =
      users ++ [{ user_name := body.user_name, age := host.toNumber body.age,
                  email := body.email, blood_group := body.blood_group,
                  mobile := body.mobile, user_password := bc.hash salt p }] ∧
    (login host bc true (register host bc salt true true users body).2
      { user_name := body.user_name, user_password := body.user_password }).status = 200 := by
  have hreg := register_accept host bc salt users body p hname hage hemail hbg hmobile
    hpw hconf hp hfresh
  have hnone : selectByName users body.user_name = [] :=
    (selectByName_eq_nil_iff users body.user_name).2 fun u hu => (hfresh u hu).1
  have hsel : ∀ row : User, row.user_name = body.user_name →
      selectByName (users ++ [row]) body.user_name = [row] := by
    intro row hrow
    have := hnone
    simp only [selectByName] at this ⊢
    simp [List.filter_append, this, hrow]
  refine ⟨by rw [hreg], by rw [hreg], ?_⟩
  rw [hreg]
  simp [login, hname, hpw, JsVal.truthy_str, hp, hsel, Bcrypt.compareVal, hcmp]

theorem register_then_login_witness :
    (register sampleHost sampleBcrypt 3 true true [] sampleRegisterBody).1.status = 201 ∧
    (register sampleHost sampleBcrypt 3 true true [] sampleRegisterBody).2 =
      [] ++ [{ user_name := sampleRegisterBody.user_name,
               age := sampleHost.toNumber sampleRegisterBody.age,
               email := sampleRegisterBody.email,
               blood_group := sampleRegisterBody.blood_group,
               mobile := sampleRegisterBody.mobile,
               user_password := sampleBcrypt.hash 3 "s3cret" }] ∧
    (login sampleHost sampleBcrypt true
      (register sampleHost sampleBcrypt 3 true true [] sampleRegisterBody).2
      { user_name := sampleRegisterBody.user_name,
        user_password := sampleRegisterBody.user_password }).status = 200 :=
  register_then_login sampleHost sampleBcrypt 3 [] sampleRegisterBody "s3cret"
    (by decide) (by decide) (by decide) (by decide) (by decide) rfl rfl (by decide)
    (by simp) (by decide)

/-- C2: a login with a present username and a non-empty string password, whose
query resolves, is answered 404 when no row has the username; otherwise, with
`u` the first row of that username, 401 when bcrypt rejects the password
against the hash stored in `u`, and 200 when it accepts, the 200 body being the
welcome message and the username, mobile and blood group of `u` and nothing
else (in particular not the stored hash). -/
theorem login_status (host : JsHost) (bc : Bcrypt) (users : List User)
    (name : JsVal) (p : String) (hname : name.truthy = true) (hp : p ≠ "") :
    ((∀ u ∈ users, u.user_name ≠ name) →
      (login host bc true users { user_name := name, user_password := .str p }).status = 404) ∧
    (∀ u, users.find? (fun v => decide (v.user_name = name)) = some u →
      (bc.compare p u.user_password = false →
        (login host bc true users { user_name := name, user_password := .str p }).status
          = 401) ∧
      (bc.compare p u.user_password = true →
        login host bc true users { user_name := name, user_password := .str p } =
          ⟨200, .loginUser ("Welcome " ++ host.toStr u.user_name ++ " on Med-Connect")
                  u.user_name u.mobile u.blood_group⟩)) := by
  refine ⟨fun hnone => ?_, fun u hu => ?_⟩
  · have h := (selectByName_eq_nil_iff users name).2 hnone
    simp [login, hname, JsVal.truthy_str, hp, h]
  · obtain ⟨rest, hrest⟩ := (selectByName_cons_iff_find users name u).2 hu
    constructor <;> intro hc <;>
      simp [login, hname, JsVal.truthy_str, hp, hrest, Bcrypt.compareVal, hc]

theorem login_status_witness :
    login sampleHost sampleBcrypt true [sampleUser]
        { user_name := .str "asha", user_password := .str "s3cret" } =
      ⟨200, .loginUser ("Welcome " ++ sampleHost.toStr sampleUser.user_name ++ " on Med-Connect")
              sampleUser.user_name sampleUser.mobile sampleUser.blood_group⟩ :=
  ((login_status sampleHost sampleBcrypt [sampleUser] (.str "asha") "s3cret"
      (by decide) (by decide)).2 sampleUser (by decide)).2 (by decide)

/-- C3: a registration in which one of the seven fields is missing (or
otherwise falsy), or whose password differs from the confirmation, is answered
400 and leaves the users table as it was, whatever the salt and the state of
the database. -/
theorem register_rejected_atomic (host : JsHost) (bc : Bcrypt) (salt : Nat)
    (selectOk insertOk : Bool) (users : List User) (body : RegisterBody)
    (h : body.user_name.truthy = false ∨ body.age.truthy = false ∨ body.email.truthy = false
      ∨ body.blood_group.truthy = false ∨ body.mobile.truthy = false
      ∨ body.user_password.truthy = false ∨ body.confirmPassword.truthy = false
      ∨ body.user_password ≠ body.confirmPassword) :
    (register host bc salt selectOk insertOk users body).1.status = 400 ∧
    (register host bc salt selectOk insertOk users body).2 = users := by
  unfold register
  split
  · exact ⟨rfl, rfl⟩
  · rename_i hall
    simp only [Bool.or_eq_true, Bool.not_eq_true', not_or, Bool.not_eq_false] at hall
    obtain ⟨⟨⟨⟨⟨⟨h1, h2⟩, h3⟩, h4⟩, h5⟩, h6⟩, h7⟩ := hall
    have hne : body.user_password ≠ body.confirmPassword := by
      rcases h with h | h | h | h | h | h | h | h
      all_goals first | exact h | simp_all
    simp [JsVal.strictEq_eq_false_of_ne hne]

theorem register_rejected_atomic_witness :
    (register sampleHost sampleBcrypt 3 true true [sampleUser]
        { sampleRegisterBody with confirmPassword := .str "s3cres" }).1.status = 400 ∧
    (register sampleHost sampleBcrypt 3 true true [sampleUser]
        { sampleRegisterBody with confirmPassword := .str "s3cres" }).2 = [sampleUser] :=
  register_rejected_atomic sampleHost sampleBcrypt 3 true true [sampleUser]
    { sampleRegisterBody with confirmPassword := .str "s3cres" }
    (Or.inr (Or.inr (Or.inr (Or.inr (Or.inr (Or.inr (Or.inr (by decide))))))))

/-- Every run of `register` either leaves the table alone with a status other
than 201, or answers 201 and appends one row built from the body, in which
case no existing row clashed with it. -/
theorem register_cases (host : JsHost) (bc : Bcrypt) (salt : Nat)
    (selectOk insertOk : Bool) (users : List User) (body : RegisterBody) :
    ((register host bc salt selectOk insertOk users body).1.status ≠ 201 ∧
      (register host bc salt selectOk insertOk users body).2 = users) ∨
    (∃ hashed : String,
      (register host bc salt selectOk insertOk users body).1.status = 201 ∧
      (register host bc salt selectOk insertOk users body).2 =
        users ++ [{ user_name := body.user_name, age := host.toNumber body.age,
                    email := body.email, blood_group := body.blood_group,
                    mobile := body.mobile, user_password := hashed }] ∧
      ∀ u ∈ users,
        u.user_name ≠ body.user_name ∧ u.email ≠ body.email ∧ u.mobile ≠ body.mobile) := by
  unfold register
  split
  · exact Or.inl ⟨by simp, rfl⟩
  split
  · exact Or.inl ⟨by simp, rfl⟩
  split
  · exact Or.inl ⟨by simp [sendServerError], rfl⟩
  rename_i hashed _
  split
  · exact Or.inl ⟨by simp [sendServerError], rfl⟩
  dsimp only
  split
  · exact Or.inl ⟨by simp, rfl⟩
  rename_i hlen
  split
  · exact Or.inl ⟨by simp [sendServerError], rfl⟩
  refine Or.inr ⟨hashed, rfl, rfl, ?_⟩
  apply (selectDuplicates_eq_nil_iff users body.user_name body.email body.mobile).1
  exact List.length_eq_zero.1 (Nat.eq_zero_of_not_pos hlen)

/-- C4: when a registration is answered 201 and a second, otherwise valid
registration with the same username is processed next, the second is answered
409 and the table stays as the first left it (whatever the email and mobile of
the second), provided its duplicate check resolves. -/
theorem register_duplicate_username (host : JsHost) (bc : Bcrypt) (salt₁ salt₂ : Nat)
    (selectOk₁ insertOk₁ insertOk₂ : Bool) (users : List User)
    (first second : RegisterBody) (p : String)
    (hfirst : (register host bc salt₁ selectOk₁ insertOk₁ users first).1.status = 201)
    (hname : second.user_name.truthy = true) (hage : second.age.truthy = true)
    (hemail : second.email.truthy = true) (hbg : second.blood_group.truthy = true)
    (hmobile : second.mobile.truthy = true)
    (hpw : second.user_password = .str p) (hconf : second.confirmPassword = .str p)
    (hp : p ≠ "")
    (hsame : second.user_name = first.user_name) :
    register host bc salt₂ true insertOk₂
        (register host bc salt₁ selectOk₁ insertOk₁ users first).2 second =
      (⟨409, .message "Username, email, or mobile already exists"⟩,
       (register host bc salt₁ selectOk₁ insertOk₁ users first).2) := by
  rcases register_cases host bc salt₁ selectOk₁ insertOk₁ users first with
    ⟨hne, _⟩ | ⟨hashed, _, htable, _⟩
  · exact absurd hfirst hne
  · rw [htable]
    have hdup : 0 < (selectDuplicates
        (users ++ [{ user_name := first.user_name, age := host.toNumber first.age,
                     email := first.email, blood_group := first.blood_group,
                     mobile := first.mobile, user_password := hashed }])
        second.user_name second.email second.mobile).length := by
      simp [selectDuplicates, List.filter_append, hsame]
    simp [register, hname, hage, hemail, hbg, hmobile, hpw, hconf, JsVal.truthy_str, hp,
      JsVal.strictEq_str, Bcrypt.hashVal, hdup]

theorem register_duplicate_username_witness :
    register sampleHost sampleBcrypt 5 true true
        (register sampleHost sampleBcrypt 3 true true [] sampleRegisterBody).2
        { sampleRegisterBody with email := .str "other@example.org", mobile := .str "9800000002" } =
      (⟨409, .message "Username, email, or mobile already exists"⟩,
       (register sampleHost sampleBcrypt 3 true true [] sampleRegisterBody).2) :=
  register_duplicate_username sampleHost sampleBcrypt 3 5 true true true []
    sampleRegisterBody
    { sampleRegisterBody with email := .str "other@example.org", mobile := .str "9800000002" }
    "s3cret" (by decide) (by decide) (by decide) (by decide) (by decide) (by decide)
    rfl rfl (by decide) rfl

theorem register_preserves_unique (host : JsHost) (bc : Bcrypt) (salt : Nat)
    (selectOk insertOk : Bool) (users : List User) (body : RegisterBody)
    (h : UniqueUsers users) :
    UniqueUsers (register host bc salt selectOk insertOk users body).2 := by
  rcases register_cases host bc salt selectOk insertOk users body with
    ⟨_, htable⟩ | ⟨hashed, _, htable, hfresh⟩
  · rw [htable]; exact h
  · rw [htable]
    obtain ⟨hn, he, hm⟩ := h
    refine ⟨?_, ?_, ?_⟩
    · simp only [List.map_append, List.map_cons, List.map_nil]
      refine List.Nodup.append hn (List.nodup_singleton _) ?_
      simp only [List.disjoint_singleton, List.mem_map, not_exists, not_and]
      exact fun u hu => (hfresh u hu).1
    · simp only [List.map_append, List.map_cons, List.map_nil]
      refine List.Nodup.append he (List.nodup_singleton _) ?_
      simp only [List.disjoint_singleton, List.mem_map, not_exists, not_and]
      exact fun u hu => (hfresh u hu).2.1
    · simp only [List.map_append, List.map_cons, List.map_nil]
      refine List.Nodup.append hm (List.nodup_singleton _) ?_
      simp only [List.disjoint_singleton, List.mem_map, not_exists, not_and]
      exact fun u hu => (hfresh u hu).2.2

theorem registerAll_preserves_unique (host : JsHost) (bc : Bcrypt) (calls : List RegisterCall) :
    ∀ users : List User, UniqueUsers users → UniqueUsers (registerAll host bc users calls) := by
  induction calls with
  | nil => intro users h; exact h
  | cons c rest ih =>
    intro users h
    exact ih _ (register_preserves_unique host bc c.salt c.selectOk c.insertOk users c.body h)

/-- C5: in the table reached from the empty table by any finite sequence of
`POST /register` requests processed one after another (whatever their bodies,
salts and query outcomes), no two rows share a username, no two share an email
and no two share a mobile number. -/
theorem users_unique_reachable (host : JsHost) (bc : Bcrypt) (calls : List RegisterCall) :
    UniqueUsers (registerAll host bc [] calls) :=
  registerAll_preserves_unique host bc calls []
    ⟨List.nodup_nil, List.nodup_nil, List.nodup_nil⟩

end Auth

/-! ## Hospital registration -/

theorem selectHospital_eq_nil_iff (hospitals : List Hospital) (n : JsVal) :
    selectHospital hospitals n = [] ↔ ∀ h ∈ hospitals, h.username ≠ n := by
  simp [selectHospital, List.filter_eq_nil_iff]

theorem selectHospital_length_pos (hospitals : List Hospital) (n : JsVal)
    (h : ∃ r ∈ hospitals, r.username = n) : 0 < (selectHospital hospitals n).length := by
  rw [List.length_pos]
  intro hnil
  obtain ⟨r, hr, hrn⟩ := h
  exact (selectHospital_eq_nil_iff hospitals n).1 hnil r hr hrn

/-- Every hospital registration either leaves the table alone with status 400
or 500, or answers 200 or 201 and appends the `params` row, in which case the
password was a string and no existing row had the username. -/
theorem registerVia_cases (route : HospitalRoute) (host : JsHost) (bc : Bcrypt) (salt : Nat)
    (selectOk insertOk : Bool) (hospitals : List Hospital) (data : HospitalBody) :
    (((registerVia route host bc salt selectOk insertOk hospitals data).1.status = 400 ∨
        (registerVia route host bc salt selectOk insertOk hospitals data).1.status = 500) ∧
      (registerVia route host bc salt selectOk insertOk hospitals data).2 = hospitals) ∨
    (∃ pw : String,
      ((registerVia route host bc salt selectOk insertOk hospitals data).1.status = 200 ∨
        (registerVia route host bc salt selectOk insertOk hospitals data).1.status = 201) ∧
      data.password = .str pw ∧
      (registerVia route host bc salt selectOk insertOk hospitals data).2 =
        hospitals ++ [paramsVia route host data (bc.hash salt pw)] ∧
      ∀ h ∈ hospitals, h.username ≠ data.username) := by
  cases route
  all_goals
    simp only [registerVia, AuthHos.registerHospital, Server.register, paramsVia]
    split
    · exact Or.inl ⟨Or.inl rfl, rfl⟩
    split
    · exact Or.inl ⟨Or.inr rfl, rfl⟩
    split
    · exact Or.inl ⟨Or.inl rfl, rfl⟩
    rename_i hlen
    have hfresh := (selectHospital_eq_nil_iff hospitals data.username).1
      (List.length_eq_zero.1 (Nat.eq_zero_of_not_pos hlen))
    cases hpw : data.password
    all_goals simp only [Bcrypt.hashVal]
    case str pw =>
      split
      · exact Or.inl ⟨Or.inr rfl, rfl⟩
      · first
          | exact Or.inr ⟨pw, Or.inr rfl, rfl, rfl, hfresh⟩
          | exact Or.inr ⟨pw, Or.inl rfl, rfl, rfl, hfresh⟩
    all_goals simp

theorem registerVia_preserves_nodup (route : HospitalRoute) (host : JsHost) (bc : Bcrypt)
    (salt : Nat) (selectOk insertOk : Bool) (hospitals : List Hospital) (data : HospitalBody)
    (h : (hospitals.map (·.username)).Nodup) :
    ((registerVia route host bc salt selectOk insertOk hospitals data).2.map
      (·.username)).Nodup := by
  rcases registerVia_cases route host bc salt selectOk insertOk hospitals data with
    ⟨_, htable⟩ | ⟨pw, _, _, htable, hfresh⟩
  · rw [htable]; exact h
  · rw [htable]
    simp only [List.map_append, List.map_cons, List.map_nil]
    refine List.Nodup.append h (List.nodup_singleton _) ?_
    simp only [List.disjoint_singleton, List.mem_map, not_exists, not_and]
    intro r hr
    cases route <;> exact hfresh r hr

theorem registerHospitals_preserves_nodup (host : JsHost) (bc : Bcrypt)
    (calls : List HospitalCall) :
    ∀ hospitals : List Hospital, (hospitals.map (·.username)).Nodup →
      ((registerHospitals host bc hospitals calls).map (·.username)).Nodup := by
  induction calls with
  | nil => intro hospitals h; exact h
  | cons c rest ih =>
    intro hospitals h
    exact ih _ (registerVia_preserves_nodup c.route host bc c.salt c.selectOk c.insertOk
      hospitals c.data h)

/-- C9: on either hospital registration endpoint, a request whose hospital
name, username or password is missing (or otherwise falsy) is answered 400, and
so is a request whose username is already in the table once the lookup
resolves; in both cases the table is unchanged.  Hence a table without
duplicate usernames has none after any sequence of registrations processed one
after another. -/
theorem hospital_registration_rejected (route : HospitalRoute) (host : JsHost) (bc : Bcrypt)
    (salt : Nat) (selectOk insertOk : Bool) (hospitals : List Hospital) (data : HospitalBody) :
    ((data.hospitalName.truthy = false ∨ data.username.truthy = false
        ∨ data.password.truthy = false) →
      (registerVia route host bc salt selectOk insertOk hospitals data).1.status = 400 ∧
      (registerVia route host bc salt selectOk insertOk hospitals data).2 = hospitals) ∧
    ((∃ r ∈ hospitals, r.username = data.username) →
      (registerVia route host bc salt true insertOk hospitals data).1.status = 400 ∧
      (registerVia route host bc salt true insertOk hospitals data).2 = hospitals) ∧
    ((hospitals.map (·.username)).Nodup → ∀ calls : List HospitalCall,
      ((registerHospitals host bc hospitals calls).map (·.username)).Nodup) := by
  refine ⟨fun hmiss => ?_, fun hdup => ?_, fun hn calls =>
    registerHospitals_preserves_nodup host bc calls hospitals hn⟩
  · have hcond : (!data.hospitalName.truthy || !data.username.truthy
        || !data.password.truthy) = true := by
      rcases hmiss with h | h | h <;> simp [h]
    cases route <;>
      simp only [registerVia, AuthHos.registerHospital, Server.register, hcond, if_true,
        and_self]
  · have hlen := selectHospital_length_pos hospitals data.username hdup
    cases route <;>
      simp only [registerVia, AuthHos.registerHospital, Server.register] <;>
      split <;> simp [hlen]

theorem hospital_registration_rejected_witness :
    ((registerVia .authHos sampleHost sampleBcrypt 7 true true [sampleHospital]
        { sampleHospitalBody with password := .undefined }).1.status = 400 ∧
      (registerVia .authHos sampleHost sampleBcrypt 7 true true [sampleHospital]
        { sampleHospitalBody with password := .undefined }).2 = [sampleHospital]) ∧
    ((registerVia .server sampleHost sampleBcrypt 7 true true [sampleHospital]
        sampleHospitalBody).1.status = 400 ∧
      (registerVia .server sampleHost sampleBcrypt 7 true true [sampleHospital]
        sampleHospitalBody).2 = [sampleHospital]) :=
  ⟨(hospital_registration_rejected .authHos sampleHost sampleBcrypt 7 true true
      [sampleHospital] { sampleHospitalBody with password := .undefined }).1
      (Or.inr (Or.inr rfl)),
   (hospital_registration_rejected .server sampleHost sampleBcrypt 7 true true
      [sampleHospital] sampleHospitalBody).2.1
      ⟨sampleHospital, List.mem_singleton.2 rfl, rfl⟩⟩

theorem numberOrZero_undefined (host : JsHost) : host.numberOrZero .undefined = .fin 0 := by
  simp [JsHost.numberOrZero, JsHost.toNumber, JsNum.truthy]

/-- C10 as stated fails: a registration that gives the three required fields
and `totalBeds: -5` is accepted with 201 and the count stored for total beds is
-5, which is not a non-negative integer. -/
theorem hospital_counts_counterexample :
    (AuthHos.registerHospital sampleHost sampleBcrypt 2 true true []
        { sampleHospitalBody with totalBeds := .num (.fin (-5)) }).1.status = 201 ∧
    (AuthHos.registerHospital sampleHost sampleBcrypt 2 true true []
        { sampleHospitalBody with totalBeds := .num (.fin (-5)) }).2.map (·.totalBeds)
      = [.fin (-5)] ∧
    ¬ (JsNum.fin (-5)).IsNonNegInt := by
  refine ⟨?_, ?_, ?_⟩
  · simp [AuthHos.registerHospital, sampleHospitalBody, emptyHospitalBody, JsVal.truthy,
      selectHospital, Bcrypt.hashVal]
  · simp [AuthHos.registerHospital, sampleHospitalBody, emptyHospitalBody, JsVal.truthy,
      selectHospital, Bcrypt.hashVal, AuthHos.params, JsHost.numberOrZero, JsHost.toNumber,
      JsNum.truthy]
  · simp [JsNum.IsNonNegInt]

/-- C10, amended: for every hospital registration accepted on either endpoint
(status 200 or 201) exactly one row is appended, and each of its six counts is
`Number(field) || 0`: the numeric value of the field when that is neither `NaN`
nor zero, and 0 otherwise; in particular it is 0 when the field is absent. -/
theorem hospital_counts_stored (route : HospitalRoute) (host : JsHost) (bc : Bcrypt)
    (salt : Nat) (selectOk insertOk : Bool) (hospitals : List Hospital) (data : HospitalBody)
    (hacc : (registerVia route host bc salt selectOk insertOk hospitals data).1.status = 200 ∨
      (registerVia route host bc salt selectOk insertOk hospitals data).1.status = 201) :
    ∃ row : Hospital,
      (registerVia route host bc salt selectOk insertOk hospitals data).2 = hospitals ++ [row] ∧
      (row.totalBeds = host.numberOrZero data.totalBeds ∧
        row.icuBeds = host.numberOrZero data.icuBeds ∧
        row.ventilators = host.numberOrZero data.ventilators ∧
        row.ambulances = host.numberOrZero data.ambulances ∧
        row.doctors = host.numberOrZero data.doctors ∧
        row.nurses = host.numberOrZero data.nurses) ∧
      ((data.totalBeds = .undefined → row.totalBeds = .fin 0) ∧
        (data.icuBeds = .undefined → row.icuBeds = .fin 0) ∧
        (data.ventilators = .undefined → row.ventilators = .fin 0) ∧
        (data.ambulances = .undefined → row.ambulances = .fin 0) ∧
        (data.doctors = .undefined → row.doctors = .fin 0) ∧
        (data.nurses = .undefined → row.nurses = .fin 0)) := by
  rcases registerVia_cases route host bc salt selectOk insertOk hospitals data with
    ⟨hrej, _⟩ | ⟨pw, _, _, htable, _⟩
  · rcases hrej with h | h <;> rcases hacc with h' | h' <;> rw [h] at h' <;> cases h'
  · refine ⟨paramsVia route host data (bc.hash salt pw), htable, ?_, ?_⟩
    · cases route <;> exact ⟨rfl, rfl, rfl, rfl, rfl, rfl⟩
    · cases route <;>
        refine ⟨fun h => ?_, fun h => ?_, fun h => ?_, fun h => ?_, fun h => ?_, fun h => ?_⟩ <;>
        simp only [paramsVia, AuthHos.params, Server.params, h, numberOrZero_undefined]

theorem hospital_counts_stored_witness :
    ∃ row : Hospital,
      (registerVia .server sampleHost sampleBcrypt 2 true true [] sampleHospitalBody).2
        = [] ++ [row] ∧
      (row.totalBeds = sampleHost.numberOrZero sampleHospitalBody.totalBeds ∧
        row.icuBeds = sampleHost.numberOrZero sampleHospitalBody.icuBeds ∧
        row.ventilators = sampleHost.numberOrZero sampleHospitalBody.ventilators ∧
        row.ambulances = sampleHost.numberOrZero sampleHospitalBody.ambulances ∧
        row.doctors = sampleHost.numberOrZero sampleHospitalBody.doctors ∧
        row.nurses = sampleHost.numberOrZero sampleHospitalBody.nurses) ∧
      ((sampleHospitalBody.totalBeds = .undefined → row.totalBeds = .fin 0) ∧
        (sampleHospitalBody.icuBeds = .undefined → row.icuBeds = .fin 0) ∧
        (sampleHospitalBody.ventilators = .undefined → row.ventilators = .fin 0) ∧
        (sampleHospitalBody.ambulances = .undefined → row.ambulances = .fin 0) ∧
        (sampleHospitalBody.doctors = .undefined → row.doctors = .fin 0) ∧
        (sampleHospitalBody.nurses = .undefined → row.nurses = .fin 0)) :=
  hospital_counts_stored .server sampleHost sampleBcrypt 2 true true [] sampleHospitalBody
    (Or.inl (by simp [registerVia, Server.register, sampleHospitalBody, emptyHospitalBody,
      JsVal.truthy, selectHospital, Bcrypt.hashVal]))

/-- C12: for every request body, table state, salt and query outcomes, the
registration of `server.js` and that of `authHos.js`, given the same bcrypt,
decide alike: either both accept (200 from the main server, 201 from the
Hospital Auth Service), the password is a string and both append the same
row, whose 22 columns are the body fields with their `null`, `0` and empty-list
defaults and the hash of the password; or both reject with the same status,
400 or 500, and leave the table as it was. -/
theorem hospital_registrations_agree (host : JsHost) (bc : Bcrypt) (salt : Nat)
    (selectOk insertOk : Bool) (hospitals : List Hospital) (data : HospitalBody) :
    (∃ pw : String, data.password = .str pw ∧
      (Server.register host bc salt selectOk insertOk hospitals data).1.status = 200 ∧
      (AuthHos.registerHospital host bc salt selectOk insertOk hospitals data).1.status = 201 ∧
      (Server.register host bc salt selectOk insertOk hospitals data).2 =
        (AuthHos.registerHospital host bc salt selectOk insertOk hospitals data).2 ∧
      (AuthHos.registerHospital host bc salt selectOk insertOk hospitals data).2 =
        hospitals ++
          [{ hospitalName := data.hospitalName,
             hospitalType := data.hospitalType.orElse .null,
             license := data.license.orElse .null,
             estYear := data.estYear.orElse .null,
             hospitalEmail := data.hospitalEmail.orElse .null,
             username := data.username,
             password := bc.hash salt pw,
             address := data.address.orElse .null,
             city := data.city.orElse .null,
             state := data.state.orElse .null,
             pin := data.pin.orElse .null,
             phone := data.phone.orElse .null,
             website := data.website.orElse .null,
             totalBeds := host.numberOrZero data.totalBeds,
             icuBeds := host.numberOrZero data.icuBeds,
             ventilators := host.numberOrZero data.ventilators,
             ambulances := host.numberOrZero data.ambulances,
             doctors := host.numberOrZero data.doctors,
             nurses := host.numberOrZero data.nurses,
             departments := host.jsonStringify (data.departments.orElse (.obj "[]")),
             longitude := data.longitude.orElse .null,
             latitude := data.latitude.orElse .null }]) ∨
    ((Server.register host bc salt selectOk insertOk hospitals data).1.status =
        (AuthHos.registerHospital host bc salt selectOk insertOk hospitals data).1.status ∧
      ((AuthHos.registerHospital host bc salt selectOk insertOk hospitals data).1.status = 400 ∨
        (AuthHos.registerHospital host bc salt selectOk insertOk hospitals data).1.status = 500) ∧
      (Server.register host bc salt selectOk insertOk hospitals data).2 = hospitals ∧
      (AuthHos.registerHospital host bc salt selectOk insertOk hospitals data).2 = hospitals) := by
  by_cases h1 : (!data.hospitalName.truthy || !data.username.truthy
      || !data.password.truthy) = true
  · right
    simp only [Server.register, AuthHos.registerHospital, h1, if_true]
    simp
  cases selectOk
  · right
    simp only [Server.register, AuthHos.registerHospital, h1]
    simp
  by_cases h2 : (selectHospital hospitals data.username).length > 0
  · right
    simp only [Server.register, AuthHos.registerHospital, h1, h2]
    simp
  cases hpw : data.password with
  | str pw =>
    have hh : bc.hashVal salt data.password = some (bc.hash salt pw) := by rw [hpw]; rfl
    cases insertOk
    · right
      simp only [Server.register, AuthHos.registerHospital, h1, h2, hh]
      simp
    · left
      refine ⟨pw, rfl, ?_⟩
      simp only [Server.register, AuthHos.registerHospital, h1, h2, hh,
        Server.params, AuthHos.params]
      simp
  | _ =>
    have hh : bc.hashVal salt data.password = none := by rw [hpw]; rfl
    right
    simp only [Server.register, AuthHos.registerHospital, h1, h2, hh]
    simp

/-! ## Triage -/

namespace Server

theorem dropWhile_append_of_all (p : Char → Bool) (xs ys : List Char)
    (h : ∀ c ∈ xs, p c = true) : (xs ++ ys).dropWhile p = ys.dropWhile p := by
  induction xs with
  | nil => rfl
  | cons x xs ih =>
    have hx : p x = true := h x (List.mem_cons_self x xs)
    simp only [List.cons_append, List.dropWhile_cons, hx, if_true]
    exact ih fun c hc => h c (List.mem_cons_of_mem x hc)

/-- When no opening brace comes before an object text and no closing brace
after it, the pattern matches exactly the object text. -/
theorem matchBraces_append (pre mid post : List Char)
    (hpre : '\x7b' ∉ pre) (hpost : '\x7d' ∉ post) :
    matchBraces (pre ++ ('\x7b' :: mid ++ ['\x7d']) ++ post) =
      some ('\x7b' :: mid ++ ['\x7d']) := by
  have h1 : (pre ++ ('\x7b' :: mid ++ ['\x7d']) ++ post).dropWhile (· ≠ '\x7b') =
      '\x7b' :: mid ++ ['\x7d'] ++ post := by
    rw [List.append_assoc, dropWhile_append_of_all _ pre _
      (fun c hc => by simpa using fun h : c = '\x7b' => hpre (h ▸ hc))]
    simp [List.dropWhile_cons]
  have h2 : ('\x7b' :: mid ++ ['\x7d'] ++ post).reverse.dropWhile (· ≠ '\x7d') =
      '\x7d' :: (mid.reverse ++ ['\x7b']) := by
    have : ('\x7b' :: mid ++ ['\x7d'] ++ post).reverse =
        post.reverse ++ ('\x7d' :: (mid.reverse ++ ['\x7b'])) := by simp
    rw [this, dropWhile_append_of_all _ post.reverse _
      (fun c hc => by
        simpa using fun h : c = '\x7d' => hpost (h ▸ List.mem_reverse.1 hc))]
    simp [List.dropWhile_cons]
  simp only [matchBraces, h1, h2]
  simp

theorem injuryResult_truthy {v w : Json} (h : v.injuryResult = some w) : v.truthy = true := by
  cases v <;> simp_all [Json.injuryResult, Json.truthy]

/-- C6 as stated fails: in `bracedStdout` the result object with label
"major injury" comes first and is followed by a log line with braces; the
pattern then matches up to the last closing brace, `JSON.parse` rejects the
match, and the detection is "No result", not the label. -/
theorem classifier_output_counterexample :
    JsonText.jsonParse "\x7b\"injuryResult\": \"major injury\"\x7d".data =
      some (.obj [("injuryResult", .str "major injury")]) ∧
    bracedStdout.data =
      [] ++ "\x7b\"injuryResult\": \"major injury\"\x7d".data
        ++ "\nSpeed: \x7b4.1ms\x7d\n".data ∧
    prediction bracedStdout.data = .str "No result" ∧
    prediction bracedStdout.data ≠ .str "major injury" := by
  have h : prediction bracedStdout.data = .str "No result" := by rfl
  refine ⟨by rfl, by rfl, h, ?_⟩
  rw [h]
  intro hne
  exact absurd (Json.str.inj hne) (by decide)

/-- C6, amended: when the classifier output is an object text with, before it,
output that contains no opening brace and, after it, output that contains no
closing brace, and the object text parses to an object whose `injuryResult` is
a non-empty string label, then the detection computed by the endpoint, returned
in the 200 response, is that label. -/
theorem classifier_output_parsed (pre mid post : List Char) (v : Json) (label : String)
    (file : String) (reports : List EmergencyReport) (body : EmergencyBody)
    (hpre : '\x7b' ∉ pre) (hpost : '\x7d' ∉ post)
    (hparse : JsonText.jsonParse ('\x7b' :: mid ++ ['\x7d']) = some v)
    (hfield : v.injuryResult = some (.str label)) (hlabel : label ≠ "") :
    prediction (pre ++ ('\x7b' :: mid ++ ['\x7d']) ++ post) = .str label ∧
    (emergencySubmit (some file) false (pre ++ ('\x7b' :: mid ++ ['\x7d']) ++ post) true
        reports body).1 =
      ⟨200, .triage "✅ Emergency submitted successfully!" file (.str label)⟩ := by
  have hp : prediction (pre ++ ('\x7b' :: mid ++ ['\x7d']) ++ post) = .str label := by
    simp only [prediction, matchBraces_append pre mid post hpre hpost, hparse,
      injuryResult_truthy hfield, if_true, hfield]
    simp [Json.truthy, hlabel]
  refine ⟨hp, ?_⟩
  simp only [emergencySubmit, hp]
  simp

theorem classifier_output_parsed_witness :
    prediction ("image 1/1 wound.jpg: 640x640\n".data
        ++ ('\x7b' :: "\"injuryResult\": \"major injury\"".data ++ ['\x7d'])
        ++ "\nSpeed: 4.1ms\n".data) = .str "major injury" ∧
    (emergencySubmit (some "1730000000000-42.jpg") false
        ("image 1/1 wound.jpg: 640x640\n".data
          ++ ('\x7b' :: "\"injuryResult\": \"major injury\"".data ++ ['\x7d'])
          ++ "\nSpeed: 4.1ms\n".data) true [] emptyEmergencyBody).1 =
      ⟨200, .triage "✅ Emergency submitted successfully!" "1730000000000-42.jpg"
              (.str "major injury")⟩ :=
  classifier_output_parsed "image 1/1 wound.jpg: 640x640\n".data
    "\"injuryResult\": \"major injury\"".data "\nSpeed: 4.1ms\n".data
    (.obj [("injuryResult", .str "major injury")]) "major injury"
    "1730000000000-42.jpg" [] emptyEmergencyBody
    (by decide) (by decide) (by rfl) (by rfl) (by decide)

/-- C7: a triage submission with no image is answered 400, and one whose
classifier process fails is answered 500 with message "Prediction failed"; in
both cases `emergency_reports` is left as it was, whatever the other inputs. -/
theorem triage_failures_write_nothing (file : String) (execErr insertOk : Bool)
    (stdout : List Char) (reports : List EmergencyReport) (body : EmergencyBody) :
    emergencySubmit none execErr stdout insertOk reports body =
      (⟨400, .error "No image uploaded"⟩, reports) ∧
    emergencySubmit (some file) true stdout insertOk reports body =
      (⟨500, .message "Prediction failed"⟩, reports) := by
  constructor <;> simp [emergencySubmit]

theorem dropWhile_head_false (p : Char → Bool) :
    ∀ (l : List Char) (x : Char) (u : List Char), l.dropWhile p = x :: u → p x = false := by
  intro l
  induction l with
  | nil => intro x u h; simp at h
  | cons a l ih =>
    intro x u h
    by_cases ha : p a = true
    · simp only [List.dropWhile_cons, ha, if_true] at h
      exact ih x u h
    · simp only [List.dropWhile_cons, ha] at h
      simp only [Bool.false_eq_true, if_false, List.cons.injEq] at h
      rw [← h.1]
      simpa using ha

/-- The pattern, when it matches, matches a block that opens with the first
opening brace of the text and closes with the last closing brace. -/
theorem matchBraces_eq_some (s block : List Char) (h : matchBraces s = some block) :
    ∃ pre mid post : List Char,
      s = pre ++ ('\x7b' :: mid ++ ['\x7d']) ++ post ∧ block = '\x7b' :: mid ++ ['\x7d'] ∧
      '\x7b' ∉ pre ∧ '\x7d' ∉ post := by
  have hs : s.takeWhile (· ≠ '\x7b') ++ s.dropWhile (· ≠ '\x7b') = s :=
    List.takeWhile_append_dropWhile _ s
  have hd : (s.dropWhile (· ≠ '\x7b')).reverse.takeWhile (· ≠ '\x7d') ++
      (s.dropWhile (· ≠ '\x7b')).reverse.dropWhile (· ≠ '\x7d') =
      (s.dropWhile (· ≠ '\x7b')).reverse := List.takeWhile_append_dropWhile _ _
  have hpre : '\x7b' ∉ s.takeWhile (· ≠ '\x7b') := fun hmem => by
    simpa using List.mem_takeWhile_imp hmem
  have hpost : '\x7d' ∉ ((s.dropWhile (· ≠ '\x7b')).reverse.takeWhile (· ≠ '\x7d')).reverse :=
    fun hmem => by simpa using List.mem_takeWhile_imp (List.mem_reverse.1 hmem)
  generalize s.takeWhile (· ≠ '\x7b') = pre at hs hpre
  generalize hdd : s.dropWhile (· ≠ '\x7b') = d at hs hd hpost
  generalize d.reverse.takeWhile (· ≠ '\x7d') = tw at hd hpost
  generalize hee : d.reverse.dropWhile (· ≠ '\x7d') = e at hd
  have hblock : block = e.reverse ∧ e ≠ [] := by
    simp only [matchBraces, hdd, hee] at h
    split at h
    · cases h
    · rename_i hne
      refine ⟨by simpa using h.symm, fun he => hne ?_⟩
      simp [he]
  obtain ⟨hb, hene⟩ := hblock
  obtain ⟨x, u, rfl⟩ := List.exists_cons_of_ne_nil hene
  have hx : x = '\x7d' := by simpa using dropWhile_head_false _ _ x u hee
  subst hx
  have hdrev : d = u.reverse ++ ['\x7d'] ++ tw.reverse := by
    have := congrArg List.reverse hd
    simpa using this.symm
  cases hu : u.reverse with
  | nil =>
    rw [hu] at hdrev
    have : (s.dropWhile (· ≠ '\x7b')) = '\x7d' :: tw.reverse := by rw [hdd, hdrev]; rfl
    have := dropWhile_head_false _ _ _ _ this
    simp at this
  | cons y mid =>
    rw [hu] at hdrev
    have h0 : (s.dropWhile (· ≠ '\x7b')) = y :: (mid ++ ['\x7d'] ++ tw.reverse) := by
      rw [hdd, hdrev]; simp
    have hy : y = '\x7b' := by simpa using dropWhile_head_false _ _ _ _ h0
    subst hy
    refine ⟨pre, mid, tw.reverse, ?_, ?_, hpre, hpost⟩
    · rw [← hs, hdrev]; simp
    · rw [hb]; simp [hu]

/-- C8: when the classifier exits successfully and its output contains no
opening brace followed later by a closing brace, or the block the pattern
matches is not valid JSON, or the parsed value has no `injuryResult`, then,
the insert succeeding, the request is answered 200 and both the `detection` of
the response and the `detection` stored in the new `emergency_reports` row are
the string "No result". -/
theorem triage_detection_default (file : String) (stdout : List Char)
    (reports : List EmergencyReport) (body : EmergencyBody)
    (h : (∀ pre mid post : List Char, stdout ≠ pre ++ ('\x7b' :: mid ++ ['\x7d']) ++ post) ∨
      (∃ block, matchBraces stdout = some block ∧ JsonText.jsonParse block = none) ∨
      (∃ block v, matchBraces stdout = some block ∧ JsonText.jsonParse block = some v ∧
        v.injuryResult = none)) :
    emergencySubmit (some file) false stdout true reports body =
      (⟨200, .triage "✅ Emergency submitted successfully!" file (.str "No result")⟩,
       reports ++ [{ reportingFor := body.reportingFor.orElse .null,
                     emergencyType := body.emergencyType.orElse .null,
                     patientName := body.patientName.orElse .null,
                     mobile := body.mobile.orElse .null,
                     bloodGroup := body.bloodGroup.orElse .null,
                     ambulance := body.ambulance.orElse .null,
                     imageName := file,
                     detection := .str "No result" }]) := by
  have hp : prediction stdout = .str "No result" := by
    rcases h with h | ⟨block, hm, hparse⟩ | ⟨block, v, hm, hparse, hfield⟩
    · cases hm : matchBraces stdout with
      | none => simp [prediction, hm]
      | some block =>
        obtain ⟨pre, mid, post, hs, _⟩ := matchBraces_eq_some stdout block hm
        exact absurd hs (h pre mid post)
    · simp [prediction, hm, hparse]
    · simp [prediction, hm, hparse, hfield]
  simp [emergencySubmit, hp]

theorem triage_detection_default_witness :
    emergencySubmit (some "1730000000000-42.jpg") false bracedStdout.data true []
        emptyEmergencyBody =
      (⟨200, .triage "✅ Emergency submitted successfully!" "1730000000000-42.jpg"
              (.str "No result")⟩,
       [] ++ [{ reportingFor := emptyEmergencyBody.reportingFor.orElse .null,
                emergencyType := emptyEmergencyBody.emergencyType.orElse .null,
                patientName := emptyEmergencyBody.patientName.orElse .null,
                mobile := emptyEmergencyBody.mobile.orElse .null,
                bloodGroup := emptyEmergencyBody.bloodGroup.orElse .null,
                ambulance := emptyEmergencyBody.ambulance.orElse .null,
                imageName := "1730000000000-42.jpg",
                detection := .str "No result" }]) :=
  triage_detection_default "1730000000000-42.jpg" bracedStdout.data [] emptyEmergencyBody
    (Or.inr (Or.inl ⟨"\x7b\"injuryResult\": \"major injury\"\x7d\nSpeed: \x7b4.1ms\x7d".data,
      by rfl, by rfl⟩))

end Server

/-! ## Symptom reports -/

namespace Auth

/-- What `handleSymptoms` does when the five required fields are present and the
insert succeeds. -/
theorem handleSymptoms_accept (host : JsHost) (file : Option String)
    (insertId timestamp : Nat) (reports : List SymptomReport) (body : SymptomsBody)
    (hname : body.name.truthy = true) (hmobile : body.mobile.truthy = true)
    (hbg : body.blood_group.truthy = true) (hdays : body.duration_days.truthy = true)
    (hamb : body.ambulance_required.truthy = true) :
    handleSymptoms host file true insertId timestamp reports body =
      (⟨201, .symptomsReceipt "Symptoms report submitted successfully." insertId
              body.name body.mobile body.blood_group body.duration_days
              body.ambulance_required file timestamp⟩,
       reports ++ [{ name := body.name, mobile := body.mobile,
                     blood_group := body.blood_group,
                     duration_days := host.toNumber body.duration_days,
                     ambulance_required := body.ambulance_required,
                     prescription_image := file }]) := by
  simp [handleSymptoms, hname, hmobile, hbg, hdays, hamb]

/-- C11 as stated fails: a report uploaded with a file named `scan.JPG` is
answered 201 and the stored `prescription_image` is
`1730000000000_k3j2h1x.jpg`, which does not end in `.JPG`, the extension of the
original name. -/
theorem symptoms_extension_counterexample :
    (symptoms posixNode sampleHost (some "multipart/form-data; boundary=x")
        (some ⟨some "scan.JPG"⟩) 1730000000000 "k3j2h1x" true 7 1730000000005 []
        sampleSymptomsBody).1.status = 201 ∧
    (symptoms posixNode sampleHost (some "multipart/form-data; boundary=x")
        (some ⟨some "scan.JPG"⟩) 1730000000000 "k3j2h1x" true 7 1730000000005 []
        sampleSymptomsBody).2.map (·.prescription_image)
      = [some "1730000000000_k3j2h1x.jpg"] ∧
    posixNode.extname "scan.JPG" = ".JPG" ∧
    ¬ (".JPG".data <:+ "1730000000000_k3j2h1x.jpg".data) := by
  refine ⟨by decide, by decide, by decide, by decide⟩

/-- C11, amended: for a symptom report with the five required fields present
and a succeeding insert, the response is 201; the stored `prescription_image`
is `null` when the request is not multipart or carries no file, and otherwise
it is the generated name, made of the time in milliseconds, an underscore, the
random suffix and the extension of the original name in lower case, so that it
ends in that lower-cased extension, for every original file name. -/
theorem symptoms_attachment (lib : NodeLib) (host : JsHost) (contentType : Option String)
    (part : Option FilePart) (now : Nat) (random : String) (insertId timestamp : Nat)
    (reports : List SymptomReport) (body : SymptomsBody)
    (hname : body.name.truthy = true) (hmobile : body.mobile.truthy = true)
    (hbg : body.blood_group.truthy = true) (hdays : body.duration_days.truthy = true)
    (hamb : body.ambulance_required.truthy = true) :
    ((includes (lib.toLowerCase (contentType.getD "")) "multipart/form-data" = false
        ∨ part = none) →
      symptoms lib host contentType part now random true insertId timestamp reports body =
        (⟨201, .symptomsReceipt "Symptoms report submitted successfully." insertId
                body.name body.mobile body.blood_group body.duration_days
                body.ambulance_required none timestamp⟩,
         reports ++ [{ name := body.name, mobile := body.mobile,
                       blood_group := body.blood_group,
                       duration_days := host.toNumber body.duration_days,
                       ambulance_required := body.ambulance_required,
                       prescription_image := none }])) ∧
    (∀ file : FilePart,
      includes (lib.toLowerCase (contentType.getD "")) "multipart/form-data" = true →
      part = some file →
      symptoms lib host contentType part now random true insertId timestamp reports body =
        (⟨201, .symptomsReceipt "Symptoms report submitted successfully." insertId
                body.name body.mobile body.blood_group body.duration_days
                body.ambulance_required
                (some (toString now ++ "_" ++ random
                  ++ lib.toLowerCase (lib.extname (file.originalname.getD ""))))
                timestamp⟩,
         reports ++ [{ name := body.name, mobile := body.mobile,
                       blood_group := body.blood_group,
                       duration_days := host.toNumber body.duration_days,
                       ambulance_required := body.ambulance_required,
                       prescription_image :=
                         some (toString now ++ "_" ++ random
                           ++ lib.toLowerCase (lib.extname (file.originalname.getD ""))) }]) ∧
      (lib.toLowerCase (lib.extname (file.originalname.getD ""))).data <:+
        (toString now ++ "_" ++ random
          ++ lib.toLowerCase (lib.extname (file.originalname.getD ""))).data) := by
  constructor
  · intro h
    have hfile : (if includes (lib.toLowerCase (contentType.getD "")) "multipart/form-data"
        then part.map (storage.filename lib now random) else none) = none := by
      rcases h with h | h
      · simp [h]
      · simp [h]
    have hs : symptoms lib host contentType part now random true insertId timestamp reports
        body = handleSymptoms host none true insertId timestamp reports body := by
      unfold symptoms
      split
      · rename_i hinc
        rw [if_pos hinc] at hfile
        rw [hfile]
      · rfl
    rw [hs]
    exact handleSymptoms_accept host none insertId timestamp reports body hname hmobile hbg
      hdays hamb
  · intro file hinc hpart
    refine ⟨?_, ?_⟩
    · unfold symptoms
      rw [if_pos hinc, hpart]
      exact handleSymptoms_accept host _ insertId timestamp reports body hname hmobile hbg
        hdays hamb
    · rw [String.data_append]
      exact List.suffix_append _ _

theorem symptoms_attachment_witness :
    symptoms posixNode sampleHost (some "multipart/form-data; boundary=x")
        (some ⟨some "scan.JPG"⟩) 1730000000000 "k3j2h1x" true 7 1730000000005 []
        sampleSymptomsBody =
      (⟨201, .symptomsReceipt "Symptoms report submitted successfully." 7
              sampleSymptomsBody.name sampleSymptomsBody.mobile sampleSymptomsBody.blood_group
              sampleSymptomsBody.duration_days sampleSymptomsBody.ambulance_required
              (some (toString 1730000000000 ++ "_" ++ "k3j2h1x"
                ++ posixNode.toLowerCase (posixNode.extname ((some "scan.JPG").getD ""))))
              1730000000005⟩,
       [] ++ [{ name := sampleSymptomsBody.name, mobile := sampleSymptomsBody.mobile,
                blood_group := sampleSymptomsBody.blood_group,
                duration_days := sampleHost.toNumber sampleSymptomsBody.duration_days,
                ambulance_required := sampleSymptomsBody.ambulance_required,
                prescription_image :=
                  some (toString 1730000000000 ++ "_" ++ "k3j2h1x"
                    ++ posixNode.toLowerCase (posixNode.extname ((some "scan.JPG").getD ""))) }]) ∧
    (posixNode.toLowerCase (posixNode.extname ((some "scan.JPG").getD ""))).data <:+
      (toString 1730000000000 ++ "_" ++ "k3j2h1x"
        ++ posixNode.toLowerCase (posixNode.extname ((some "scan.JPG").getD ""))).data :=
  (symptoms_attachment posixNode sampleHost (some "multipart/form-data; boundary=x")
      (some ⟨some "scan.JPG"⟩) 1730000000000 "k3j2h1x" 7 1730000000005 [] sampleSymptomsBody
      (by decide) (by decide) (by decide) (by decide) (by decide)).2
    ⟨some "scan.JPG"⟩ (by decide) rfl

end Auth

/-! ## Routing -/

theorem routerDispatch_mem (routes : List Route) (method : Method) (path : List String)
    (h : Handler) (hd : routerDispatch routes method path = some h) :
    h ∈ routes.map (·.handler) := by
  simp only [routerDispatch, Option.map_eq_some'] at hd
  obtain ⟨r, hr, rfl⟩ := hd
  exact List.mem_map.2 ⟨r, List.mem_of_find?_eq_some hr, rfl⟩

/-- A request is only ever answered by a handler registered in the stack. -/
theorem dispatch_mem (served : List String → Bool) (method : Method) (path : List String)
    (h : Handler) :
    ∀ layers : List Layer, dispatch served layers method path = .handler h →
      h ∈ stackHandlers layers := by
  intro layers
  induction layers with
  | nil => intro hd; simp [dispatch] at hd
  | cons layer rest ih =>
    intro hd
    simp only [stackHandlers, List.mem_append]
    cases layer with
    | static =>
      simp only [dispatch] at hd
      split at hd
      · cases hd
      · exact Or.inr (ih hd)
    | use base router =>
      simp only [dispatch] at hd
      split at hd
      · split at hd
        · rename_i h' hr
          cases hd
          exact Or.inl (routerDispatch_mem router method _ h hr)
        · exact Or.inr (ih hd)
      · exact Or.inr (ih hd)
    | route r =>
      simp only [dispatch] at hd
      split at hd
      · cases hd
        exact Or.inl (List.mem_singleton.2 rfl)
      · exact Or.inr (ih hd)

/-- C13 as stated fails: with no public file in the way, the main server
answers `POST /auth/register-hospital`, `POST /auth/authority-login` and
`GET /auth/hospital/citycare` with 404 instead of passing them to the handlers
of the Hospital Auth Service. -/
theorem hospital_routes_counterexample :
    dispatch noPublicFile Server.app .post ["auth", "register-hospital"] = .notFound ∧
    dispatch noPublicFile Server.app .post ["auth", "authority-login"] = .notFound ∧
    dispatch noPublicFile Server.app .get ["auth", "hospital", "citycare"] = .notFound ∧
    routerDispatch AuthHos.router .post ["register-hospital"] = some .registerHospital := by
  refine ⟨by decide, by decide, by decide, by decide⟩

/-- C13, amended: the stack of the main server mounts under `/auth` the router
of `auth.js` only.  No request at all is passed to a handler of the Hospital
Auth Service; `POST /auth/register-hospital` and `POST /auth/authority-login`
get 404 and `GET /auth/hospital/:username` gets a public file or 404; whereas
every request that a route of the patient router matches below `/auth` is
passed to that route, unless it is a GET or HEAD for which a public file
exists. -/
theorem hospital_auth_not_mounted (served : List String → Bool) (method : Method)
    (path : List String) (username : String) :
    (∀ h : Handler, dispatch served Server.app method path = .handler h →
      h.isHospitalAuth = false) ∧
    dispatch served Server.app .post ["auth", "register-hospital"] = .notFound ∧
    dispatch served Server.app .post ["auth", "authority-login"] = .notFound ∧
    dispatch served Server.app .get ["auth", "hospital", username] =
      (if served ["auth", "hospital", username] = true then .staticFile else .notFound) ∧
    (∀ h : Handler, routerDispatch Auth.router method path = some h →
      dispatch served Server.app method ("auth" :: path) =
        if (method = .get ∨ method = .head) ∧ served ("auth" :: path) = true then .staticFile
        else .handler h) := by
  refine ⟨fun h hd => ?_, ?_, ?_, ?_, fun h hr => ?_⟩
  · have hall : ∀ g ∈ stackHandlers Server.app, g.isHospitalAuth = false := by decide
    exact hall h (dispatch_mem served method path h Server.app hd)
  · simp [Server.app, dispatch, stripBase, sameSegment, routerDispatch, Auth.router,
      Verb.accepts, matchPath, Segment.accepts]
  · simp [Server.app, dispatch, stripBase, sameSegment, routerDispatch, Auth.router,
      Verb.accepts, matchPath, Segment.accepts]
  · simp [Server.app, dispatch, stripBase, sameSegment, routerDispatch, Auth.router,
      Verb.accepts, matchPath, Segment.accepts]
  · have hstrip : stripBase ["auth"] ("auth" :: path) = some path := by
      simp [stripBase, sameSegment]
    simp only [Server.app, dispatch, hstrip, hr]

end Medinexus
